import Mathlib

/-!
Verification development for the Rocket-Logistics voice agent
(`ai_agent.py`, `logistics_tools.py`, `database.py`).

The Python code is shallowly embedded: every handler, tool and store
operation becomes a computable Lean function over explicit state.
Utterances, conversation states and context values are strings, as in the
source (Python passes state names and sub-step names as string literals).
User-visible message texts are represented by the inductive type `Msg`,
with one constructor per message template in the source (the claims never
inspect the rendered characters of a message, only which message it is).
Unicode-sensitive Python primitives (`str.lower`, `str.strip`, `\w`, `\d`)
are modelled on their ASCII behaviour, which is the alphabet every
tracking identifier, keyword and state name in the program draws from.
-/

namespace RocketLogistics

/-! ## Character and string primitives (models of Python `str` methods) -/

/-- Model of Python `str.lower()` (ASCII). -/
def pyLower (s : String) : String := String.mk (s.toList.map Char.toLower)

/-- Model of Python `str.upper()` (ASCII). -/
def pyUpper (s : String) : String := String.mk (s.toList.map Char.toUpper)

/-- Drop leading and trailing whitespace from a character list. -/
def trimChars (l : List Char) : List Char :=
  ((l.dropWhile Char.isWhitespace).reverse.dropWhile Char.isWhitespace).reverse

/-- Model of Python `str.strip()`. -/
def pyStrip (s : String) : String := String.mk (trimChars s.toList)

/-- Is `p` a prefix of `l`, by character equality. -/
def prefixChars : List Char → List Char → Bool
  | [], _ => true
  | _ :: _, [] => false
  | a :: as, b :: bs => a == b && prefixChars as bs

/-- Does `hay` contain `needle` as a contiguous substring?
Model of Python `needle in hay`. -/
def containsChars : List Char → List Char → Bool
  | hay, needle =>
    match hay with
    | [] => needle.isEmpty
    | _ :: t => prefixChars needle hay || containsChars t needle

/-- Model of Python `needle in hay` on strings. -/
def strContains (hay needle : String) : Bool :=
  containsChars hay.toList needle.toList

/-- Does `s` end with `suffix`? Model of Python `str.endswith`. -/
def strEndsWith (s suffix : String) : Bool :=
  prefixChars suffix.toList.reverse s.toList.reverse

/-- Model of Python `str.title()` (ASCII): a cased character is
upper-cased when the previous character is not alphabetic, lower-cased
otherwise. -/
def pyTitleGo : Bool → List Char → List Char
  | _, [] => []
  | prevAlpha, c :: cs =>
    (if c.isAlpha then (if prevAlpha then c.toLower else c.toUpper) else c)
      :: pyTitleGo c.isAlpha cs

/-- Model of Python `str.title()`. -/
def pyTitle (s : String) : String := String.mk (pyTitleGo false s.toList)

/-- Model of Python `str.zfill(w)`: left-pad with zeros to width `w`. -/
def zfill (w : Nat) (s : String) : String :=
  if s.length < w then String.mk (List.replicate (w - s.length) '0') ++ s else s

/-! ## Calendar dates

`datetime.date` values are modelled as year/month/day triples of naturals.
-/

structure Date where
  year : Nat
  month : Nat
  day : Nat
deriving DecidableEq

/-- Zero-padded decimal rendering of a natural number. -/
def padNum (w : Nat) (n : Nat) : String := zfill w (toString n)

/-- Model of `datetime.strftime("%Y-%m-%d")`. -/
def formatDate (d : Date) : String :=
  padNum 4 d.year ++ "-" ++ padNum 2 d.month ++ "-" ++ padNum 2 d.day

/-- Gregorian leap-year test. -/
def isLeapYear (y : Nat) : Bool :=
  (y % 4 == 0 && y % 100 != 0) || y % 400 == 0

/-- Days in a month of the Gregorian calendar. -/
def daysInMonth (y m : Nat) : Nat :=
  if m == 2 then (if isLeapYear y then 29 else 28)
  else if m == 4 || m == 6 || m == 9 || m == 11 then 30
  else 31

/-- The calendar day after `d` (model of `date + timedelta(days=1)`). -/
def nextDay (d : Date) : Date :=
  if d.day < daysInMonth d.year d.month then ⟨d.year, d.month, d.day + 1⟩
  else if d.month < 12 then ⟨d.year, d.month + 1, 1⟩
  else ⟨d.year + 1, 1, 1⟩

/-- A date value is in the range `strftime` renders canonically (4-digit
year, valid month and day). -/
def validDate (d : Date) : Bool :=
  1000 ≤ d.year && d.year ≤ 9999 && 1 ≤ d.month && d.month ≤ 12 &&
    1 ≤ d.day && d.day ≤ daysInMonth d.year d.month

def isDigitChar (c : Char) : Bool := c.isDigit

/-- Parse exactly `n` decimal digits from the front of `l`, also
returning the remainder. -/
def takeDigits : Nat → List Char → Option (List Char × List Char)
  | 0, rest => some ([], rest)
  | _ + 1, [] => none
  | n + 1, c :: cs =>
    if isDigitChar c then
      match takeDigits n cs with
      | some (d, rest) => some (c :: d, rest)
      | none => none
    else none

/-- Decimal value of a digit list (most significant first). -/
def digitsToNat : List Char → Nat → Nat
  | [], acc => acc
  | c :: cs, acc => digitsToNat cs (acc * 10 + (c.toNat - 48))

/-- Model of `datetime.strptime(s, "%Y-%m-%d")` succeeding: the string is
exactly `YYYY-MM-DD` with a valid calendar date. -/
def isValidYMD (s : String) : Bool :=
  match takeDigits 4 s.toList with
  | some (y, '-' :: rest) =>
    match takeDigits 2 rest with
    | some (m, '-' :: rest2) =>
      match takeDigits 2 rest2 with
      | some (d, []) =>
        let ym := digitsToNat y 0
        let mm := digitsToNat m 0
        let dm := digitsToNat d 0
        1 ≤ mm && mm ≤ 12 && 1 ≤ dm && dm ≤ daysInMonth ym mm
      | _ => false
    | _ => false
  | _ => false

/-- Take one or two leading digits, greedily (two when available), as the
regex `\d{1,2}` does. -/
def takeOneTwoDigits : List Char → Option (List Char × List Char)
  | [] => none
  | c :: cs =>
    if isDigitChar c then
      match cs with
      | d :: rest => if isDigitChar d then some ([c, d], rest) else some ([c], cs)
      | [] => some ([c], [])
    else none

/-- Model of `datetime.strptime(s, "%m/%d/%Y")` succeeding. -/
def isValidMDY (s : String) : Bool :=
  match takeOneTwoDigits s.toList with
  | some (m, '/' :: rest) =>
    match takeOneTwoDigits rest with
    | some (d, '/' :: rest2) =>
      match takeDigits 4 rest2 with
      | some (y, []) =>
        let ym := digitsToNat y 0
        let mm := digitsToNat m 0
        let dm := digitsToNat d 0
        1 ≤ mm && mm ≤ 12 && 1 ≤ dm && dm ≤ daysInMonth ym mm
      | _ => false
    | _ => false
  | _ => false

/-! ## Messages

Every user-visible message template of the source is one constructor.
Constructors carry the values interpolated by the corresponding f-string;
suffix-appending concatenations (`result['message'] + " Is there anything
else ..."`) become wrapper constructors.
-/

/-- Messages raised by database.py (`ValueError` texts and
`confirmation_message` values). -/
inductive MsgDb where
  | dbNotFound (tid : String)             -- "Shipment with tracking ID {tid} not found"
  | dbAlreadyCancelled (tid : String)     -- "Shipment {tid} is already cancelled"
  | dbBadTimeData (s : String)            -- strptime ValueError text
  | dbBadAddressType                      -- bad address-type ValueError text
  | dbUniqueViolation                     -- asyncpg primary-key conflict on INSERT
  | bookedConfirmation (tid : String)
  | rescheduledConfirmation (tid date : String)
  | cancelledConfirmation (tid : String)
  | addressUpdatedConfirmation (tid atype addr : String)
  | timeUpdatedConfirmation (tid date time : String)
deriving DecidableEq

/-- Messages produced by logistics_tools.py result dicts. -/
inductive MsgTool where
  | foundShipment (tid name : String)
  | toolNotFound (tid : String)           -- get_shipment not-found text
  | getSystemError
  | invalidDateFormat                     -- "Please provide the date in a valid format, ..."
  | updateSystemError
  | missingBookingInfo
  | invalidDeliveryDate
  | bookSystemError
  | verifyNotFound (tid : String)
  | identityVerified (name : String)
  | nameMismatch
  | verifySystemError
  | cancelSystemError
  | invalidAddressType
  | addressSystemError
  | timeSystemError
deriving DecidableEq

set_option maxHeartbeats 1600000 in
/-- Messages produced by ai_agent.py handler returns. -/
inductive MsgAgent where
  | techDifficulties
  | repeatTrackingMsg (slow : String)
  | noRecentTracking
  | cancelAskTid
  | trackAskTid
  | addressVerifyIdentity (tid : String)
  | addressAskTid
  | bookingAskName
  | rescheduleVerifyIdentityIntent (tid : String)  -- line 196: "I can help you reschedule ..."
  | rescheduleVerifyIdentityFlow (tid : String)    -- line 389: "I will help you reschedule ..."
  | rescheduleAskTid
  | timeVerifyIdentity (tid : String)
  | timeAskTid
  | farewellMsg
  | menuPrompt
  | trackingUnclear
  | trackingFound (tid name statusPretty date city : String)
  | bookingNameRetry
  | bookingAskPickup (name : String)
  | bookingPickupRetry
  | bookingAskDelivery
  | bookingDeliveryRetry
  | bookingAskDate
  | dateRetry
  | bookingSuccess (slow : String)
  | tidRetry                              -- "I did not catch your tracking ID. ..."
  | lostTracking
  | confirmCancelPrompt (tid : String)
  | selectAddressPrompt (tid : String)
  | newTimePrompt (tid : String)
  | newDatePrompt (tid : String)
  | cancellationCancelled
  | askNewPickup
  | askNewDelivery
  | eitherAddressPrompt
  | transferToHuman
deriving DecidableEq

/-- A user-visible message: one of the templates above, possibly with one
of the suffix-appending concatenations of ai_agent.py applied
(`result[...] + " Is there anything else I can help you with?"` and its
variants become wrapper constructors). -/
inductive Msg where
  | db (m : MsgDb)
  | tool (m : MsgTool)
  | agent (m : MsgAgent)
  | anythingElse (m : Msg)                -- m + " Is there anything else I can help you with?"
  | anythingElseDot (m : Msg)             -- m + ". Is there anything else I can help you with?"
  | tryAnother (m : Msg)                  -- m + " Would you like to try another tracking ID ..."
  | tryAgainOrHuman (m : Msg)             -- m + " Would you like to try again or speak with ..."
  | transferSuffix (m : Msg)              -- m + " Let me transfer you to a human agent."
deriving DecidableEq

namespace Msg

abbrev dbNotFound (tid : String) : Msg := .db (.dbNotFound tid)
abbrev dbAlreadyCancelled (tid : String) : Msg := .db (.dbAlreadyCancelled tid)
abbrev dbBadTimeData (s : String) : Msg := .db (.dbBadTimeData s)
abbrev dbBadAddressType : Msg := .db .dbBadAddressType
abbrev dbUniqueViolation : Msg := .db .dbUniqueViolation
abbrev bookedConfirmation (tid : String) : Msg := .db (.bookedConfirmation tid)
abbrev rescheduledConfirmation (tid date : String) : Msg :=
  .db (.rescheduledConfirmation tid date)
abbrev cancelledConfirmation (tid : String) : Msg := .db (.cancelledConfirmation tid)
abbrev addressUpdatedConfirmation (tid atype addr : String) : Msg :=
  .db (.addressUpdatedConfirmation tid atype addr)
abbrev timeUpdatedConfirmation (tid date time : String) : Msg :=
  .db (.timeUpdatedConfirmation tid date time)
abbrev foundShipment (tid name : String) : Msg := .tool (.foundShipment tid name)
abbrev toolNotFound (tid : String) : Msg := .tool (.toolNotFound tid)
abbrev getSystemError : Msg := .tool .getSystemError
abbrev invalidDateFormat : Msg := .tool .invalidDateFormat
abbrev updateSystemError : Msg := .tool .updateSystemError
abbrev missingBookingInfo : Msg := .tool .missingBookingInfo
abbrev invalidDeliveryDate : Msg := .tool .invalidDeliveryDate
abbrev bookSystemError : Msg := .tool .bookSystemError
abbrev verifyNotFound (tid : String) : Msg := .tool (.verifyNotFound tid)
abbrev identityVerified (name : String) : Msg := .tool (.identityVerified name)
abbrev nameMismatch : Msg := .tool .nameMismatch
abbrev verifySystemError : Msg := .tool .verifySystemError
abbrev cancelSystemError : Msg := .tool .cancelSystemError
abbrev invalidAddressType : Msg := .tool .invalidAddressType
abbrev addressSystemError : Msg := .tool .addressSystemError
abbrev timeSystemError : Msg := .tool .timeSystemError
abbrev techDifficulties : Msg := .agent .techDifficulties
abbrev repeatTrackingMsg (slow : String) : Msg := .agent (.repeatTrackingMsg slow)
abbrev noRecentTracking : Msg := .agent .noRecentTracking
abbrev cancelAskTid : Msg := .agent .cancelAskTid
abbrev trackAskTid : Msg := .agent .trackAskTid
abbrev addressVerifyIdentity (tid : String) : Msg := .agent (.addressVerifyIdentity tid)
abbrev addressAskTid : Msg := .agent .addressAskTid
abbrev bookingAskName : Msg := .agent .bookingAskName
abbrev rescheduleVerifyIdentityIntent (tid : String) : Msg :=
  .agent (.rescheduleVerifyIdentityIntent tid)
abbrev rescheduleVerifyIdentityFlow (tid : String) : Msg :=
  .agent (.rescheduleVerifyIdentityFlow tid)
abbrev rescheduleAskTid : Msg := .agent .rescheduleAskTid
abbrev timeVerifyIdentity (tid : String) : Msg := .agent (.timeVerifyIdentity tid)
abbrev timeAskTid : Msg := .agent .timeAskTid
abbrev farewellMsg : Msg := .agent .farewellMsg
abbrev menuPrompt : Msg := .agent .menuPrompt
abbrev trackingUnclear : Msg := .agent .trackingUnclear
abbrev trackingFound (tid name statusPretty date city : String) : Msg :=
  .agent (.trackingFound tid name statusPretty date city)
abbrev bookingNameRetry : Msg := .agent .bookingNameRetry
abbrev bookingAskPickup (name : String) : Msg := .agent (.bookingAskPickup name)
abbrev bookingPickupRetry : Msg := .agent .bookingPickupRetry
abbrev bookingAskDelivery : Msg := .agent .bookingAskDelivery
abbrev bookingDeliveryRetry : Msg := .agent .bookingDeliveryRetry
abbrev bookingAskDate : Msg := .agent .bookingAskDate
abbrev dateRetry : Msg := .agent .dateRetry
abbrev bookingSuccess (slow : String) : Msg := .agent (.bookingSuccess slow)
abbrev tidRetry : Msg := .agent .tidRetry
abbrev lostTracking : Msg := .agent .lostTracking
abbrev confirmCancelPrompt (tid : String) : Msg := .agent (.confirmCancelPrompt tid)
abbrev selectAddressPrompt (tid : String) : Msg := .agent (.selectAddressPrompt tid)
abbrev newTimePrompt (tid : String) : Msg := .agent (.newTimePrompt tid)
abbrev newDatePrompt (tid : String) : Msg := .agent (.newDatePrompt tid)
abbrev cancellationCancelled : Msg := .agent .cancellationCancelled
abbrev askNewPickup : Msg := .agent .askNewPickup
abbrev askNewDelivery : Msg := .agent .askNewDelivery
abbrev eitherAddressPrompt : Msg := .agent .eitherAddressPrompt
abbrev transferToHuman : Msg := .agent .transferToHuman

end Msg

/-! ## Data model -/

/-- A row of the `shipments` table (timestamps omitted: no embedded code
path reads them). -/
structure Shipment where
  tracking_id : String
  customer_name : String
  pickup_address : String
  delivery_address : String
  delivery_date : String
  status : String
deriving DecidableEq

/-- One invocation of a `Database` operation, recorded for the claims
about which store calls a turn makes. -/
inductive StoreCall where
  | get (tid : String)
  | book (name pickup delivery date : String)
  | reschedule (tid date : String)
  | cancel (tid : String)
  | updateAddress (tid atype addr : String)
  | updateTime (tid time : String) (date : Option String)
deriving DecidableEq

/-- The shipment store.  `freshId` models the `random.randint(10000000,
99999999)` draw used by `book_shipment`; `log` records every store
operation invoked, in order. -/
structure DbState where
  shipments : List Shipment
  freshId : String
  log : List StoreCall
deriving DecidableEq

/-- `SELECT * FROM shipments WHERE tracking_id = $1` (the primary key is
unique, so the first match is the row). -/
def findShipment (db : DbState) (tid : String) : Option Shipment :=
  db.shipments.find? (fun s => s.tracking_id == tid)

def logCall (db : DbState) (c : StoreCall) : DbState :=
  { db with log := db.log ++ [c] }

/-! ## database.py

Each operation logs its invocation and returns `Except Msg` where
`.error` models a raised `ValueError` carrying that message.  Generic
backend failures (pool unreachable) are not modelled: the store is
assumed to respond. -/

namespace Database

/-- `Database.get_shipment` (database.py lines 68-91). -/
def get_shipment (db : DbState) (tid : String) : Option Shipment × DbState :=
  (findShipment db tid, logCall db (.get tid))

structure CancelData where
  tracking_id : String
  customer_name : String
  previous_status : String
  new_status : String
deriving DecidableEq

/-- `Database.cancel_shipment` (database.py lines 230-265): `ValueError`
when the shipment is absent or already cancelled, else the row's status
becomes `cancelled`. -/
def cancel_shipment (db : DbState) (tid : String) :
    Except Msg (CancelData × Msg) × DbState :=
  let db1 := logCall db (.cancel tid)
  match findShipment db tid with
  | none => (.error (.dbNotFound tid), db1)
  | some s =>
    if s.status == "cancelled" then (.error (.dbAlreadyCancelled tid), db1)
    else
      let db2 := { db1 with
        shipments := db1.shipments.map (fun x =>
          if x.tracking_id == tid then { x with status := "cancelled" } else x) }
      (.ok (⟨tid, s.customer_name, s.status, "cancelled"⟩, .cancelledConfirmation tid), db2)

structure UpdateData where
  tracking_id : String
  customer_name : String
  new_delivery_date : String
  status : String
deriving DecidableEq

/-- `Database.update_shipment` (database.py lines 137-173): `strptime`
runs before the existence check, so an invalid date raises first. -/
def update_shipment (db : DbState) (tid new_date : String) :
    Except Msg (UpdateData × Msg) × DbState :=
  let db1 := logCall db (.reschedule tid new_date)
  if !isValidYMD new_date then (.error (.dbBadTimeData new_date), db1)
  else
    match findShipment db tid with
    | none => (.error (.dbNotFound tid), db1)
    | some s =>
      let db2 := { db1 with
        shipments := db1.shipments.map (fun x =>
          if x.tracking_id == tid then
            { x with delivery_date := new_date, status := "rescheduled" }
          else x) }
      (.ok (⟨tid, s.customer_name, new_date, "rescheduled"⟩,
        .rescheduledConfirmation tid new_date), db2)

structure BookingData where
  tracking_id : String
  customer_name : String
  pickup_address : String
  delivery_address : String
  delivery_date : String
  status : String
deriving DecidableEq

/-- `Database.book_shipment` (database.py lines 93-135).  The fresh
tracking identifier is the state's `freshId`; a key collision or invalid
date raises (the tool converts any such raise to a system error). -/
def book_shipment (db : DbState) (name pickup delivery date : String) :
    Except Msg (BookingData × Msg) × DbState :=
  let tid := db.freshId
  let db1 := logCall db (.book name pickup delivery date)
  if !isValidYMD date then (.error (.dbBadTimeData date), db1)
  else if (findShipment db1 tid).isSome then (.error .dbUniqueViolation, db1)
  else
    let db2 := { db1 with
      shipments := db1.shipments ++ [⟨tid, name, pickup, delivery, date, "booked"⟩] }
    (.ok (⟨tid, name, pickup, delivery, date, "booked"⟩, .bookedConfirmation tid), db2)

structure AddrData where
  tracking_id : String
  customer_name : String
  address_type : String
  old_address : String
  new_address : String
deriving DecidableEq

/-- `Database.update_shipment_address` (database.py lines 267-311). -/
def update_shipment_address (db : DbState) (tid atype addr : String) :
    Except Msg (AddrData × Msg) × DbState :=
  let db1 := logCall db (.updateAddress tid atype addr)
  if !(atype == "pickup" || atype == "delivery") then
    (.error .dbBadAddressType, db1)
  else
    match findShipment db tid with
    | none => (.error (.dbNotFound tid), db1)
    | some s =>
      let oldAddr := if atype == "pickup" then s.pickup_address else s.delivery_address
      let db2 := { db1 with
        shipments := db1.shipments.map (fun x =>
          if x.tracking_id == tid then
            (if atype == "pickup" then
              { x with pickup_address := addr, status := "modified" }
            else
              { x with delivery_address := addr, status := "modified" })
          else x) }
      (.ok (⟨tid, s.customer_name, atype, oldAddr, addr⟩,
        .addressUpdatedConfirmation tid atype addr), db2)

structure TimeData where
  tracking_id : String
  customer_name : String
  old_date : String
  new_date : String
  new_time : String
deriving DecidableEq

/-- `Database.update_delivery_time` (database.py lines 313-354): the
existence check precedes the `strptime` of an optional new date; an
absent date keeps the stored one. -/
def update_delivery_time (db : DbState) (tid new_time : String)
    (new_date : Option String) : Except Msg (TimeData × Msg) × DbState :=
  let db1 := logCall db (.updateTime tid new_time new_date)
  match findShipment db tid with
  | none => (.error (.dbNotFound tid), db1)
  | some s =>
    let used : Except Msg String :=
      match new_date with
      | some d => if isValidYMD d then .ok d else .error (.dbBadTimeData d)
      | none => .ok s.delivery_date
    match used with
    | .error e => (.error e, db1)
    | .ok d =>
      let db2 := { db1 with
        shipments := db1.shipments.map (fun x =>
          if x.tracking_id == tid then
            { x with delivery_date := d, status := "rescheduled" }
          else x) }
      (.ok (⟨tid, s.customer_name, s.delivery_date, d, new_time⟩,
        .timeUpdatedConfirmation tid d new_time), db2)

end Database

/-! ## logistics_tools.py

Each tool returns a record mirroring the result dict: `success`, an
optional `data` payload, and `message`.  An `.error` from the store is a
caught `ValueError`; the tool-level `except Exception` branches fire in
the model exactly where the Python code would raise inside the `try`
(an `AttributeError` from calling `.strip()`/`.lower()` on `None` is
modelled by the `none` case of an `Option String` argument). -/

namespace LogisticsTools

/-- `tracking_id.strip().upper()`, the cleanup every tool applies. -/
def cleanId (t : String) : String := pyUpper (pyStrip t)

/-- `LogisticsTools._is_valid_date_format` (logistics_tools.py lines
225-240): accepts `YYYY-MM-DD` or `MM/DD/YYYY`. -/
def is_valid_date_format (s : String) : Bool := isValidYMD s || isValidMDY s

structure GetData where
  tracking_id : String
  customer_name : String
  status : String
  delivery_date : String
  delivery_address : String
  pickup_address : String
  city : String
deriving DecidableEq

structure GetOut where
  success : Bool
  data : Option GetData
  message : Msg
deriving DecidableEq

/-- Model of Python `str.split(',')`. -/
def splitCommaGo (acc : List Char) : List Char → List String
  | [] => [String.mk acc.reverse]
  | c :: cs =>
    if c == ',' then String.mk acc.reverse :: splitCommaGo [] cs
    else splitCommaGo (c :: acc) cs

/-- `delivery_parts[-2].strip() if len(delivery_parts) >= 2 else
"destination"` over `delivery_address.split(',')`. -/
def cityOf (delivery_address : String) : String :=
  let parts := splitCommaGo [] delivery_address.toList
  if parts.length ≥ 2 then pyStrip (parts.getD (parts.length - 2) "")
  else "destination"

/-- Success payload of `get_shipment` for shipment `s` found under the
(possibly variant) identifier `tid`. -/
def mkGetSuccess (tid : String) (s : Shipment) : GetOut :=
  { success := true
    data := some ⟨s.tracking_id, s.customer_name, s.status, s.delivery_date,
      s.delivery_address, s.pickup_address, cityOf s.delivery_address⟩
    message := .foundShipment tid s.customer_name }

/-- The loop of logistics_tools.py lines 28-33: try each suffix variant in
order, stopping at the first hit. -/
def tryVariants (db : DbState) (base : String) :
    List String → Option (String × Shipment) × DbState
  | [] => (none, db)
  | sfx :: rest =>
    let v := base ++ sfx
    match Database.get_shipment db v with
    | (some s, db2) => (some (v, s), db2)
    | (none, db2) => tryVariants db2 base rest

/-- The nine suffixes tried by the recovery loop, in source order. -/
def variantSuffixes : List String :=
  ["01", "02", "03", "04", "05", "06", "07", "08", "09"]

/-- `tracking_id[:-2]`: drop the last two characters. -/
def dropLastTwo (t : String) : String := String.mk (t.toList.dropLast.dropLast)

/-- `LogisticsTools.get_shipment` (logistics_tools.py lines 11-66):
verbatim lookup of the cleaned identifier, then — only when it is 8
characters ending in `00` — the `01`..`09` variant recovery loop. -/
def get_shipment (db : DbState) (tracking_id : String) : GetOut × DbState :=
  let t := cleanId tracking_id
  match Database.get_shipment db t with
  | (some s, db1) => (mkGetSuccess t s, db1)
  | (none, db1) =>
    if strEndsWith t "00" && t.length == 8 then
      match tryVariants db1 (dropLastTwo t) variantSuffixes with
      | (some (v, s), db2) => (mkGetSuccess v s, db2)
      | (none, db2) => ({ success := false, data := none, message := .toolNotFound t }, db2)
    else ({ success := false, data := none, message := .toolNotFound t }, db1)

structure VerifyOut where
  success : Bool
  verified : Bool   -- Python omits this key when success is false; the handler never reads it there
  message : Msg
deriving DecidableEq

/-- `LogisticsTools.verify_customer_identity` (logistics_tools.py lines
178-223): case-insensitive substring containment in either direction
between the stripped spoken name and the stored name. -/
def verify_customer_identity (db : DbState) (customer_name tracking_id : String) :
    VerifyOut × DbState :=
  let t := cleanId tracking_id
  match Database.get_shipment db t with
  | (none, db1) =>
    (⟨false, false, .verifyNotFound t⟩, db1)
  | (some s, db1) =>
    let stored := pyLower s.customer_name
    let provided := pyStrip (pyLower customer_name)
    if strContains stored provided || strContains provided stored then
      (⟨true, true, .identityVerified s.customer_name⟩, db1)
    else
      (⟨true, false, .nameMismatch⟩, db1)

structure CancelOut where
  success : Bool
  data : Option Database.CancelData
  message : Msg
deriving DecidableEq

/-- `LogisticsTools.cancel_shipment` (logistics_tools.py lines 242-277).
A `none` identifier models a `None` from the context: `.strip()` on it
raises inside the `try` and the generic handler answers. -/
def cancel_shipment (db : DbState) (tracking_id : Option String) :
    CancelOut × DbState :=
  match tracking_id with
  | none => (⟨false, none, .cancelSystemError⟩, db)
  | some t =>
    match Database.cancel_shipment db (cleanId t) with
    | (.ok (data, conf), db2) => (⟨true, some data, conf⟩, db2)
    | (.error e, db2) => (⟨false, none, e⟩, db2)

structure UpdateOut where
  success : Bool
  data : Option Database.UpdateData
  message : Msg
deriving DecidableEq

/-- `LogisticsTools.update_shipment` (logistics_tools.py lines 68-114):
validates the date before calling the store; a store `ValueError`
becomes a failure result carrying its text. -/
def update_shipment (db : DbState) (tracking_id new_date : String) :
    UpdateOut × DbState :=
  let t := cleanId tracking_id
  if !is_valid_date_format new_date then
    (⟨false, none, .invalidDateFormat⟩, db)
  else
    match Database.update_shipment db t new_date with
    | (.ok (data, conf), db2) => (⟨true, some data, conf⟩, db2)
    | (.error e, db2) => (⟨false, none, e⟩, db2)

structure BookOut where
  success : Bool
  data : Option Database.BookingData
  message : Msg
deriving DecidableEq

/-- `LogisticsTools.book_shipment` (logistics_tools.py lines 116-176):
rejects empty fields and bad dates up front; any store raise becomes the
generic system error (there is no `except ValueError` clause here). -/
def book_shipment (db : DbState)
    (customer_name pickup_address delivery_address delivery_date : String) :
    BookOut × DbState :=
  if customer_name.isEmpty || pickup_address.isEmpty || delivery_address.isEmpty
      || delivery_date.isEmpty then
    (⟨false, none, .missingBookingInfo⟩, db)
  else if !is_valid_date_format delivery_date then
    (⟨false, none, .invalidDeliveryDate⟩, db)
  else
    match Database.book_shipment db (pyStrip customer_name) (pyStrip pickup_address)
        (pyStrip delivery_address) delivery_date with
    | (.ok (data, conf), db2) => (⟨true, some data, conf⟩, db2)
    | (.error _, db2) => (⟨false, none, .bookSystemError⟩, db2)

structure AddrOut where
  success : Bool
  data : Option Database.AddrData
  message : Msg
deriving DecidableEq

/-- `LogisticsTools.update_address` (logistics_tools.py lines 279-326).
`none` arguments model `None` context values raising on `.strip()` /
`.lower()` inside the `try` (tracking id is dereferenced first). -/
def update_address (db : DbState) (tracking_id : Option String)
    (address_type : Option String) (new_address : String) : AddrOut × DbState :=
  match tracking_id with
  | none => (⟨false, none, .addressSystemError⟩, db)
  | some t =>
    match address_type with
    | none => (⟨false, none, .addressSystemError⟩, db)
    | some a =>
      let ct := cleanId t
      let ca := pyStrip (pyLower a)
      if !(ca == "pickup" || ca == "delivery") then
        (⟨false, none, .invalidAddressType⟩, db)
      else
        match Database.update_shipment_address db ct ca new_address with
        | (.ok (data, conf), db2) => (⟨true, some data, conf⟩, db2)
        | (.error e, db2) => (⟨false, none, e⟩, db2)

structure TimeOut where
  success : Bool
  data : Option Database.TimeData
  message : Msg
deriving DecidableEq

/-- `LogisticsTools.update_delivery_time` (logistics_tools.py lines
328-375). -/
def update_delivery_time (db : DbState) (tracking_id : Option String)
    (new_time : String) (new_date : Option String) : TimeOut × DbState :=
  match tracking_id with
  | none => (⟨false, none, .timeSystemError⟩, db)
  | some t =>
    let ct := cleanId t
    match new_date with
    | some d =>
      if !is_valid_date_format d then (⟨false, none, .invalidDateFormat⟩, db)
      else
        match Database.update_delivery_time db ct new_time (some d) with
        | (.ok (data, conf), db2) => (⟨true, some data, conf⟩, db2)
        | (.error e, db2) => (⟨false, none, e⟩, db2)
    | none =>
      match Database.update_delivery_time db ct new_time none with
      | (.ok (data, conf), db2) => (⟨true, some data, conf⟩, db2)
      | (.error e, db2) => (⟨false, none, e⟩, db2)

end LogisticsTools

/-! ## ai_agent.py — text extractors

The regular expressions of the source are implemented as character-list
scanners with Python `re` semantics: leftmost search position wins,
quantifiers are greedy, `\b` is a word/non-word transition with
`\w = [A-Za-z0-9_]` (ASCII model). -/

namespace SwiftLogisticsAgent

/-- Python regex word character (`\w`, ASCII model). -/
def isWordChar (c : Char) : Bool := c.isAlphanum || c == '_'

/-- A `\b` before the current position, given the preceding character
(`none` at the start of the string), when the current character is a
word character. -/
def boundaryBefore (prev : Option Char) : Bool :=
  match prev with
  | none => true
  | some p => !isWordChar p

/-- A `\b` after a word character, looking at the rest of the string. -/
def headNonWord : List Char → Bool
  | [] => true
  | c :: _ => !isWordChar c

/-- One attempt of `\d{7,8}\b` at the current position: greedily eight
digits then a boundary, else seven digits then a boundary. -/
def tryMatchAt (l : List Char) : Option (List Char) :=
  match takeDigits 8 l with
  | some (d, rest) =>
    if headNonWord rest then some d
    else
      match takeDigits 7 l with
      | some (d7, rest7) => if headNonWord rest7 then some d7 else none
      | none => none
  | none =>
    match takeDigits 7 l with
    | some (d7, rest7) => if headNonWord rest7 then some d7 else none
    | none => none

/-- `re.search(r'\b(\d{7,8})\b', ...)`: scan positions left to right,
attempting the match wherever a boundary precedes. -/
def searchRun (prev : Option Char) : List Char → Option (List Char)
  | [] => none
  | c :: cs =>
    if boundaryBefore prev then
      match tryMatchAt (c :: cs) with
      | some d => some d
      | none => searchRun (some c) cs
    else searchRun (some c) cs

/-- `SwiftLogisticsAgent._extract_tracking_id` (ai_agent.py lines
699-717): first word-bounded 7-8 digit run; a 7-digit run is left-padded
with a zero.  The `endswith('00')` conditional of lines 712-716 returns
the same identifier on both branches and is elided. -/
def extract_tracking_id (message : String) : Option String :=
  match searchRun none message.toList with
  | none => none
  | some d => some (String.mk (if d.length == 7 then '0' :: d else d))

/-- `SwiftLogisticsAgent._format_tracking_id_for_speech` (ai_agent.py
lines 719-728): a dash between consecutive digits. -/
def format_tracking_id_for_speech (t : String) : String :=
  String.mk (List.intersperse '-' t.toList)

/-! ### Date parsing (`_parse_date`, ai_agent.py lines 730-778)

`dateutil.parser.parse` is third-party code; it enters the model as an
explicit oracle parameter `DateOracle` (`none` models the parse raising).
Everything around it — lower/strip, the ordinal-suffix removal, the
`today`/`tomorrow` substitutions and the two regex fallbacks — is
embedded below.  Line 743 substitutes `datetime.now()` for `tomorrow`
without adding a day; the embedding reproduces that faithfully. -/

def DateOracle : Type := String → Option Date

/-- Replace every word-bounded occurrence of the word `w0 :: wrest` by
`repl` (model of `re.sub(r'\bword\b', repl, s)` for an alphabetic word).
The recursion is driven by a fuel counter so that the definition reduces
in the kernel; every step consumes at least one character and exactly one
unit of fuel, so fuel equal to the input length (as `subWord` supplies)
never runs out before the input does. -/
def subWordAux (w0 : Char) (wrest repl : List Char) :
    Nat → Option Char → List Char → List Char
  | _, _, [] => []
  | 0, _, l => l
  | fuel + 1, prev, c :: cs =>
    if boundaryBefore prev && prefixChars (w0 :: wrest) (c :: cs)
        && headNonWord (cs.drop wrest.length) then
      repl ++ subWordAux w0 wrest repl fuel (some (wrest.getLastD w0))
        (cs.drop wrest.length)
    else c :: subWordAux w0 wrest repl fuel (some c) cs

/-- Word-bounded replace-all on strings. -/
def subWord (word repl s : String) : String :=
  match word.toList with
  | [] => s
  | w0 :: wrest =>
    String.mk (subWordAux w0 wrest repl.toList s.toList.length none s.toList)

/-- Does the list start with one of the ordinal suffixes `st`, `nd`,
`rd`, `th`? -/
def isOrdSuffix (a b : Char) : Bool :=
  (a == 's' && b == 't') || (a == 'n' && b == 'd') ||
    (a == 'r' && b == 'd') || (a == 't' && b == 'h')

/-- Model of `re.sub(r'\b(\d+)(st|nd|rd|th)\b', r'\1', s)` (ai_agent.py
line 741): a word-bounded digit run loses an immediately following
ordinal suffix.  Fuel-driven for the same reason as `subWordAux`. -/
def stripOrdinalsAux : Nat → Option Char → List Char → List Char
  | _, _, [] => []
  | 0, _, l => l
  | fuel + 1, prev, c :: cs =>
    if boundaryBefore prev && isDigitChar c then
      match cs.dropWhile isDigitChar with
      | a :: b :: rest2 =>
        if isOrdSuffix a b && headNonWord rest2 then
          (c :: cs.takeWhile isDigitChar) ++ stripOrdinalsAux fuel (some b) rest2
        else c :: stripOrdinalsAux fuel (some c) cs
      | _ => c :: stripOrdinalsAux fuel (some c) cs
    else c :: stripOrdinalsAux fuel (some c) cs

def stripOrdinals (s : String) : String :=
  String.mk (stripOrdinalsAux s.toList.length none s.toList)

/-- One attempt of the slash-or-dash date pattern `(\d{1,2})`, separator,
`(\d{1,2})`, separator, `(\d{4})` at the current position, greedy on each
group (the separator class admits a slash or a dash). -/
def tryMDYAt (l : List Char) : Option (String × String × String) :=
  match takeOneTwoDigits l with
  | some (m, s1 :: rest) =>
    if s1 == '/' || s1 == '-' then
      match takeOneTwoDigits rest with
      | some (d, s2 :: rest2) =>
        if s2 == '/' || s2 == '-' then
          match takeDigits 4 rest2 with
          | some (y, _) => some (String.mk m, String.mk d, String.mk y)
          | none => none
        else none
      | _ => none
    else none
  | _ => none

/-- `re.search` for the `MM/DD/YYYY` fallback (ai_agent.py lines
754-759).  The source pattern backtracks from a two-digit group to a
one-digit group when the separator does not follow; `tryMDYAt` folds that
into the greedy scan because a digit can never equal a separator, so a
failed two-digit attempt can only succeed at the next scan position. -/
def searchMDY : List Char → Option (String × String × String)
  | [] => none
  | c :: cs =>
    match tryMDYAt (c :: cs) with
    | some r => some r
    | none => searchMDY cs

/-- `re.search(r'(\d{1,2})', s)`: the first digit run, truncated to two
digits (ai_agent.py line 771). -/
def findDay : List Char → Option String
  | [] => none
  | c :: cs =>
    if isDigitChar c then
      match cs with
      | d :: _ => if isDigitChar d then some (String.mk [c, d]) else some (String.mk [c])
      | [] => some (String.mk [c])
    else findDay cs

/-- The month-name table of ai_agent.py lines 762-766, in source
(insertion) order. -/
def monthMap : List (String × String) :=
  [("january", "01"), ("february", "02"), ("march", "03"), ("april", "04"),
   ("may", "05"), ("june", "06"), ("july", "07"), ("august", "08"),
   ("september", "09"), ("october", "10"), ("november", "11"), ("december", "12")]

/-- The month-name fallback (ai_agent.py lines 768-775): the first month
name contained in the string, with the first 1-2 digit run as the day and
the fixed year 2025. -/
def monthNameScan (s : String) : Option String :=
  match monthMap.find? (fun p => strContains s p.1) with
  | some (_, mm) =>
    match findDay s.toList with
    | some day => some ("2025-" ++ mm ++ "-" ++ zfill 2 day)
    | none => none
  | none => none

/-- `SwiftLogisticsAgent._parse_date` (ai_agent.py lines 730-778):
normalize, strip ordinals, substitute `today` and `tomorrow` (line 743
uses the current date for `tomorrow` — no one-day offset), then the
dateutil oracle, then the regex fallbacks. -/
def parse_date (oracle : DateOracle) (now : Date) (s : String) : Option String :=
  let t0 := pyStrip (pyLower s)
  let t1 := stripOrdinals t0
  let t2 := subWord "today" (formatDate now) t1
  let t3 := subWord "tomorrow" (formatDate now) t2
  match oracle t3 with
  | some d => some (formatDate d)
  | none =>
    match searchMDY t3.toList with
    | some (m, d, y) => some (y ++ "-" ++ zfill 2 m ++ "-" ++ zfill 2 d)
    | none => monthNameScan t3

/-! ### Conversation context and turn results -/

end SwiftLogisticsAgent

/-- The context dict keys the agent reads or writes, each optional.
A `none` field models an absent key (or Python `None`).  `last_booking`
holds a booking record: the source only ever stores a tool success
payload there, which always carries a `tracking_id`, so the
`'tracking_id' in last_booking` test of ai_agent.py line 97 is `isSome`
here. -/
structure Context where
  tracking_id : Option String
  action : Option String
  step : Option String
  booking_step : Option String
  reschedule_step : Option String
  address_type : Option String
  customer_name : Option String
  pickup_address : Option String
  delivery_address : Option String
  identity_verified : Bool
  last_booking : Option Database.BookingData
  last_tracking_id : Option String
  last_update : Option Database.UpdateData
deriving DecidableEq

/-- The empty context dict. -/
def Context.empty : Context :=
  ⟨none, none, none, none, none, none, none, none, none, false, none, none, none⟩

/-- The dict every handler returns (the output contract of a turn).
`next_state` is a string, as in the source, where state names are string
literals. -/
structure TurnResult where
  message : Msg
  next_state : String
  context : Context
  continue_conversation : Bool
deriving DecidableEq

namespace SwiftLogisticsAgent

/-- `self.states` (ai_agent.py lines 17-29): the conversation states the
agent declares. -/
def conversationStates : List String :=
  ["greeting", "intent_detection", "tracking", "booking", "rescheduling",
   "cancellation", "address_update", "time_update", "identity_verification",
   "completion", "transfer_human"]

/-! ### Intent keyword predicates (ai_agent.py lines 657-697) -/

/-- `_wants_to_track`. -/
def wants_to_track (m : String) : Bool :=
  ["track", "tracking", "status", "where is", "locate", "find my"].any
    (fun k => strContains m k)

/-- `_wants_to_book`: `ship` counts only when `shipment` is absent. -/
def wants_to_book (m : String) : Bool :=
  if strContains m "ship" && !strContains m "shipment" then true
  else
    ["book", "schedule", "send", "new shipment", "create"].any
      (fun k => strContains m k)

/-- `_wants_to_reschedule` (the source lists `reschedule` twice). -/
def wants_to_reschedule (m : String) : Bool :=
  ["reschedule", "delay", "postpone", "change date", "move", "reschedule"].any
    (fun k => strContains m k)

/-- `_wants_human_agent`: keyword or a literal star. -/
def wants_human_agent (m : String) : Bool :=
  (["human", "agent", "person", "representative", "operator", "transfer"].any
    (fun k => strContains m k)) || strContains m "*"

/-- `_wants_to_cancel`. -/
def wants_to_cancel (m : String) : Bool :=
  ["cancel", "delete", "remove", "stop", "abort", "terminate"].any
    (fun k => strContains m k)

/-- `_wants_to_update_address`. -/
def wants_to_update_address (m : String) : Bool :=
  ["change address", "update address", "modify address", "new address",
   "different address", "wrong address", "pickup", "delivery location",
   "update my address", "change my address", "modify my address",
   "update my shipment", "modify my shipment", "change my shipment"].any
    (fun k => strContains m k)

/-- `_wants_to_update_time`. -/
def wants_to_update_time (m : String) : Bool :=
  ["change time", "update time", "different time", "new time",
   "morning", "afternoon", "evening", "am", "pm", "earlier", "later"].any
    (fun k => strContains m k)

/-- The literal `"that's all"` of ai_agent.py line 231 (with its
apostrophe). -/
def thatsAllApos : String :=
  String.mk ['t', 'h', 'a', 't', '\'', 's', ' ', 'a', 'l', 'l']

/-- The farewell keyword test of ai_agent.py line 231. -/
def isFarewell (m : String) : Bool :=
  ["thank you", "thanks", "thats all", thatsAllApos, "goodbye", "bye", "done"].any
    (fun k => strContains m k)

/-- The confirmation keyword test of ai_agent.py line 519. -/
def isYes (m : String) : Bool :=
  ["yes", "confirm", "sure", "ok", "proceed"].any (fun k => strContains m k)

/-- `_format_tracking_response` (ai_agent.py lines 780-790): the status
with underscores as spaces, title-cased. -/
def format_tracking_response (d : LogisticsTools.GetData) : Msg :=
  .trackingFound d.tracking_id d.customer_name
    (pyTitle (String.map (fun c => if c == '_' then ' ' else c) d.status))
    d.delivery_date d.city

/-- `_transfer_to_human` (ai_agent.py lines 792-799). -/
def transfer_to_human : TurnResult :=
  ⟨.transferToHuman, "transfer_human", Context.empty, false⟩

/-! ### Flow handlers

Handlers that can only ever execute a `return` statement yield
`TurnResult × DbState`; handlers whose `if`/`elif` chain can fall off the
end (returning Python `None`) yield `Option TurnResult × DbState`; the
two handlers that can raise a `KeyError` on a missing context key yield
`Except Unit (Option TurnResult × DbState)`, the `.error` caught by the
orchestrator's blanket `except`. -/

/-- `context.get('tracking_id') or self._extract_tracking_id(...)`:
Python `or` falls through on an empty (falsy) string. -/
def getOrExtract (o : Option String) (alt : Option String) : Option String :=
  match o with
  | some t => if t.isEmpty then alt else some t
  | none => alt

/-- `_handle_tracking` (ai_agent.py lines 248-279).  The tool's `data`
payload is present exactly on success, so the `result['success']` branch
is the `some` case of the payload. -/
def handle_tracking (msg : String) (ctx : Context) (db : DbState) :
    TurnResult × DbState :=
  match getOrExtract ctx.tracking_id (extract_tracking_id msg) with
  | none => (⟨.trackingUnclear, "tracking", ctx, true⟩, db)
  | some tid =>
    match LogisticsTools.get_shipment db tid with
    | (res, db2) =>
      match res.data with
      | some d =>
        (⟨.anythingElse (format_tracking_response d), "intent_detection",
          { Context.empty with last_tracking_id := some tid }, true⟩, db2)
      | none =>
        (⟨.tryAnother res.message, "intent_detection", ctx, true⟩, db2)

/-- `_handle_intent_detection` (ai_agent.py lines 91-246): the ordered
intent chain. -/
def handle_intent_detection (msg : String) (ctx : Context) (db : DbState) :
    TurnResult × DbState :=
  if strContains msg "repeat" && strContains msg "tracking" then
    match ctx.last_booking with
    | some lb =>
      (⟨.repeatTrackingMsg (format_tracking_id_for_speech lb.tracking_id),
        "intent_detection", ctx, true⟩, db)
    | none => (⟨.noRecentTracking, "intent_detection", ctx, true⟩, db)
  else if wants_to_cancel msg then
    match extract_tracking_id msg with
    | some tid =>
      match LogisticsTools.cancel_shipment db (some tid) with
      | (res, db2) =>
        if res.success then
          (⟨.anythingElse res.message, "intent_detection", Context.empty, true⟩, db2)
        else
          (⟨res.message, "intent_detection", Context.empty, true⟩, db2)
    | none =>
      (⟨.cancelAskTid, "cancellation",
        { ctx with action := some "cancel", step := some "get_tracking_id" }, true⟩, db)
  else if wants_to_track msg then
    match extract_tracking_id msg with
    | some tid => handle_tracking "" { ctx with tracking_id := some tid } db
    | none => (⟨.trackAskTid, "tracking", ctx, true⟩, db)
  else if wants_to_update_address msg then
    match extract_tracking_id msg with
    | some tid =>
      (⟨.addressVerifyIdentity tid, "identity_verification",
        { ctx with tracking_id := some tid, action := some "update_address" }, true⟩, db)
    | none =>
      (⟨.addressAskTid, "address_update",
        { ctx with
        action := some "update_address", step := some "get_tracking_id" },
        true⟩, db)
  else if wants_to_book msg then
    (⟨.bookingAskName, "booking",
      { ctx with booking_step := some "customer_name" }, true⟩, db)
  else if wants_to_reschedule msg then
    match extract_tracking_id msg with
    | some tid =>
      (⟨.rescheduleVerifyIdentityIntent tid, "identity_verification",
        { ctx with
          tracking_id := some tid,
          reschedule_step := some "identity_verification" }, true⟩, db)
    | none =>
      (⟨.rescheduleAskTid, "rescheduling",
        { ctx with reschedule_step := some "get_tracking_id" }, true⟩, db)
  else if wants_to_update_time msg then
    match extract_tracking_id msg with
    | some tid =>
      (⟨.timeVerifyIdentity tid, "identity_verification",
        { ctx with tracking_id := some tid, action := some "update_time" }, true⟩, db)
    | none =>
      (⟨.timeAskTid, "time_update",
        { ctx with
        action := some "update_time", step := some "get_tracking_id" },
        true⟩, db)
  else if isFarewell msg then
    (⟨.farewellMsg, "completed", Context.empty, false⟩, db)
  else
    (⟨.menuPrompt, "intent_detection", ctx, true⟩, db)

/-- `_handle_booking` (ai_agent.py lines 281-371).  An unknown
`booking_step` falls off the `elif` chain (`.ok (none, db)`); a missing
slot key at the final step raises a `KeyError` (`.error`). -/
def handle_booking (oracle : DateOracle) (now : Date) (msg : String)
    (ctx : Context) (db : DbState) : Except Unit (Option TurnResult × DbState) :=
  if ctx.booking_step.getD "customer_name" == "customer_name" then
    if msg.isEmpty || (pyStrip msg).length < 2 then
      .ok (some ⟨.bookingNameRetry, "booking", ctx, true⟩, db)
    else
      let name := pyTitle msg
      .ok (some ⟨.bookingAskPickup name, "booking",
        { ctx with
          customer_name := some name,
          booking_step := some "pickup_address" }, true⟩, db)
  else if ctx.booking_step.getD "customer_name" == "pickup_address" then
    if msg.isEmpty || (pyStrip msg).length < 3 then
      .ok (some ⟨.bookingPickupRetry, "booking", ctx, true⟩, db)
    else
      .ok (some ⟨.bookingAskDelivery, "booking",
        { ctx with
          pickup_address := some msg,
          booking_step := some "delivery_address" }, true⟩, db)
  else if ctx.booking_step.getD "customer_name" == "delivery_address" then
    if msg.isEmpty || (pyStrip msg).length < 3 then
      .ok (some ⟨.bookingDeliveryRetry, "booking", ctx, true⟩, db)
    else
      .ok (some ⟨.bookingAskDate, "booking",
        { ctx with
          delivery_address := some msg,
          booking_step := some "delivery_date" }, true⟩, db)
  else if ctx.booking_step.getD "customer_name" == "delivery_date" then
    match parse_date oracle now msg with
    | none => .ok (some ⟨.dateRetry, "booking", ctx, true⟩, db)
    | some delivery_date =>
      match ctx.customer_name, ctx.pickup_address, ctx.delivery_address with
      | some cn, some pa, some da =>
        match LogisticsTools.book_shipment db cn pa da delivery_date with
        | (res, db2) =>
          match res.data with
          | some data =>
            .ok (some ⟨.bookingSuccess (format_tracking_id_for_speech data.tracking_id),
              "intent_detection",
              { Context.empty with last_booking := some data }, true⟩, db2)
          | none =>
            .ok (some ⟨.tryAgainOrHuman res.message, "intent_detection", ctx, true⟩, db2)
      | _, _, _ => .error ()
  else .ok (none, db)

/-- `_handle_rescheduling` (ai_agent.py lines 373-422). -/
def handle_rescheduling (oracle : DateOracle) (now : Date) (msg : String)
    (ctx : Context) (db : DbState) : Except Unit (Option TurnResult × DbState) :=
  if ctx.reschedule_step.getD "get_tracking_id" == "get_tracking_id" then
    match extract_tracking_id msg with
    | none => .ok (some ⟨.tidRetry, "rescheduling", ctx, true⟩, db)
    | some tid =>
      .ok (some ⟨.rescheduleVerifyIdentityFlow tid, "identity_verification",
        { ctx with
          tracking_id := some tid,
          reschedule_step := some "identity_verification" }, true⟩, db)
  else if ctx.reschedule_step.getD "get_tracking_id" == "get_new_date" then
    match parse_date oracle now msg with
    | none => .ok (some ⟨.dateRetry, "rescheduling", ctx, true⟩, db)
    | some new_date =>
      match ctx.tracking_id with
      | none => .error ()
      | some tid =>
        match LogisticsTools.update_shipment db tid new_date with
        | (res, db2) =>
          match res.data with
          | some data =>
            .ok (some ⟨.anythingElseDot res.message, "intent_detection",
              { Context.empty with last_update := some data }, true⟩, db2)
          | none =>
            .ok (some ⟨.tryAgainOrHuman res.message, "intent_detection", ctx, true⟩, db2)
  else .ok (none, db)

/-- `_handle_identity_verification` (ai_agent.py lines 424-484). -/
def handle_identity_verification (msg : String) (ctx : Context) (db : DbState) :
    TurnResult × DbState :=
  match ctx.tracking_id with
  | none => (⟨.lostTracking, "rescheduling", Context.empty, true⟩, db)
  | some tid =>
    match LogisticsTools.verify_customer_identity db msg tid with
    | (res, db2) =>
      if !res.success then
        (⟨.transferSuffix res.message, "transfer_human", ctx, false⟩, db2)
      else if res.verified then
        if ctx.action.getD "reschedule" == "cancel" then
          (⟨.confirmCancelPrompt tid, "cancellation",
            { ctx with
              step := some "confirm_cancellation",
              identity_verified := true }, true⟩, db2)
        else if ctx.action.getD "reschedule" == "update_address" then
          (⟨.selectAddressPrompt tid, "address_update",
            { ctx with
              step := some "select_address_type",
              identity_verified := true }, true⟩, db2)
        else if ctx.action.getD "reschedule" == "update_time" then
          (⟨.newTimePrompt tid, "time_update",
            { ctx with
              step := some "get_new_time",
              identity_verified := true }, true⟩, db2)
        else
          (⟨.newDatePrompt tid, "rescheduling",
            { ctx with
              reschedule_step := some "get_new_date",
              identity_verified := true }, true⟩, db2)
      else
        (⟨res.message, "transfer_human", ctx, false⟩, db2)

/-- `_handle_cancellation` (ai_agent.py lines 486-542). -/
def handle_cancellation (msg : String) (ctx : Context) (db : DbState) :
    Option TurnResult × DbState :=
  if ctx.step.getD "get_tracking_id" == "get_tracking_id" then
    match extract_tracking_id msg with
    | some tid =>
      match LogisticsTools.cancel_shipment db (some tid) with
      | (res, db2) =>
        if res.success then
          (some ⟨.anythingElse res.message, "intent_detection", Context.empty, true⟩, db2)
        else
          (some ⟨res.message, "intent_detection", Context.empty, true⟩, db2)
    | none => (some ⟨.tidRetry, "cancellation", ctx, true⟩, db)
  else if ctx.step.getD "get_tracking_id" == "confirm_cancellation" then
    if isYes msg then
      match LogisticsTools.cancel_shipment db ctx.tracking_id with
      | (res, db2) =>
        if res.success then
          (some ⟨.anythingElse res.message, "completion", Context.empty, true⟩, db2)
        else
          (some ⟨.transferSuffix res.message, "transfer_human", ctx, false⟩, db2)
    else
      (some ⟨.cancellationCancelled, "completion", Context.empty, true⟩, db)
  else (none, db)

/-- `_handle_address_update` (ai_agent.py lines 544-611). -/
def handle_address_update (msg : String) (ctx : Context) (db : DbState) :
    Option TurnResult × DbState :=
  if ctx.step.getD "get_tracking_id" == "get_tracking_id" then
    match extract_tracking_id msg with
    | some tid =>
      (some ⟨.addressVerifyIdentity tid, "identity_verification",
        { ctx with
        tracking_id := some tid, action := some "update_address" },
        true⟩, db)
    | none => (some ⟨.tidRetry, "address_update", ctx, true⟩, db)
  else if ctx.step.getD "get_tracking_id" == "select_address_type" then
    if ["pickup", "pick up", "pick-up", "from"].any (fun k => strContains msg k) then
      (some ⟨.askNewPickup, "address_update",
        { ctx with
        address_type := some "pickup", step := some "get_new_address" },
        true⟩, db)
    else if ["delivery", "deliver", "to", "destination"].any
        (fun k => strContains msg k) then
      (some ⟨.askNewDelivery, "address_update",
        { ctx with
        address_type := some "delivery", step := some "get_new_address" },
        true⟩, db)
    else
      (some ⟨.eitherAddressPrompt, "address_update", ctx, true⟩, db)
  else if ctx.step.getD "get_tracking_id" == "get_new_address" then
    match LogisticsTools.update_address db ctx.tracking_id ctx.address_type msg with
    | (res, db2) =>
      if res.success then
        (some ⟨.anythingElse res.message, "completion", Context.empty, true⟩, db2)
      else
        (some ⟨.transferSuffix res.message, "transfer_human", ctx, false⟩, db2)
  else (none, db)

/-- `_handle_time_update` (ai_agent.py lines 613-655). -/
def handle_time_update (oracle : DateOracle) (now : Date) (msg : String)
    (ctx : Context) (db : DbState) : Option TurnResult × DbState :=
  if ctx.step.getD "get_tracking_id" == "get_tracking_id" then
    match extract_tracking_id msg with
    | some tid =>
      (some ⟨.timeVerifyIdentity tid, "identity_verification",
        { ctx with
        tracking_id := some tid, action := some "update_time" },
        true⟩, db)
    | none => (some ⟨.tidRetry, "time_update", ctx, true⟩, db)
  else if ctx.step.getD "get_tracking_id" == "get_new_time" then
    match LogisticsTools.update_delivery_time db ctx.tracking_id msg
        (parse_date oracle now msg) with
    | (res, db2) =>
      if res.success then
        (some ⟨.anythingElse res.message, "completion", Context.empty, true⟩, db2)
      else
        (some ⟨.transferSuffix res.message, "transfer_human", ctx, false⟩, db2)
  else (none, db)

/-- `process_message` (ai_agent.py lines 31-84): lower and strip the
utterance, apply the human-transfer interrupt, dispatch on the state
string (unknown states fall back to intent detection), and convert an
uncaught handler exception into the technical-difficulties transfer. -/
def process_message (oracle : DateOracle) (now : Date) (user_message : String)
    (current_state : String) (ctx : Context) (db : DbState) :
    Option TurnResult × DbState :=
  if wants_human_agent (pyStrip (pyLower user_message)) then (some transfer_to_human, db)
  else if current_state == "greeting" then
    match handle_intent_detection (pyStrip (pyLower user_message)) ctx db with
    | (r, db2) => (some r, db2)
  else if current_state == "intent_detection" then
    match handle_intent_detection (pyStrip (pyLower user_message)) ctx db with
    | (r, db2) => (some r, db2)
  else if current_state == "tracking" then
    match handle_tracking (pyStrip (pyLower user_message)) ctx db with
    | (r, db2) => (some r, db2)
  else if current_state == "booking" then
    match handle_booking oracle now (pyStrip (pyLower user_message)) ctx db with
    | .ok (r, db2) => (r, db2)
    | .error () => (some ⟨.techDifficulties, "transfer_human", ctx, false⟩, db)
  else if current_state == "rescheduling" then
    match handle_rescheduling oracle now (pyStrip (pyLower user_message)) ctx db with
    | .ok (r, db2) => (r, db2)
    | .error () => (some ⟨.techDifficulties, "transfer_human", ctx, false⟩, db)
  else if current_state == "cancellation" then
    handle_cancellation (pyStrip (pyLower user_message)) ctx db
  else if current_state == "address_update" then
    handle_address_update (pyStrip (pyLower user_message)) ctx db
  else if current_state == "time_update" then
    handle_time_update oracle now (pyStrip (pyLower user_message)) ctx db
  else if current_state == "identity_verification" then
    match handle_identity_verification (pyStrip (pyLower user_message)) ctx db with
    | (r, db2) => (some r, db2)
  else
    match handle_intent_detection (pyStrip (pyLower user_message)) ctx db with
    | (r, db2) => (some r, db2)

end SwiftLogisticsAgent

/-! ## Concrete instruments

A computable stand-in for the dateutil oracle on canonical input, and
sample stores, used by the concrete theorems and witnesses below. -/

/-- A `DateOracle` that parses exactly the canonical `YYYY-MM-DD` form
(which is how `dateutil.parser.parse` behaves on such input; everything
else is rejected, standing in for inputs whose dateutil behaviour the
model does not fix). -/
def parseCanonical (s : String) : Option Date :=
  match takeDigits 4 s.toList with
  | some (y, '-' :: r) =>
    match takeDigits 2 r with
    | some (m, '-' :: r2) =>
      match takeDigits 2 r2 with
      | some (d, []) =>
        let dt : Date := ⟨digitsToNat y 0, digitsToNat m 0, digitsToNat d 0⟩
        if validDate dt then some dt else none
      | _ => none
    | _ => none
  | _ => none

def canonicalOracle : SwiftLogisticsAgent.DateOracle := parseCanonical

/-- A booked shipment for John Smith under tracking ID `12345678`. -/
def johnShipment : Shipment :=
  ⟨"12345678", "John Smith", "123 Main St, Springfield, IL",
   "456 Oak Ave, Chicago, IL", "2025-12-15", "booked"⟩

/-- A store holding only `johnShipment`, with an empty call log. -/
def dbJohn : DbState := ⟨[johnShipment], "87654321", []⟩

/-- The same shipment already cancelled. -/
def cancelledShipment : Shipment := { johnShipment with status := "cancelled" }

/-- A store holding only the cancelled shipment. -/
def dbCancelled : DbState := ⟨[cancelledShipment], "87654321", []⟩

namespace SwiftLogisticsAgent

/-! ## Claims -/

/-- C5: processing the utterance `"12345678"` in state `cancellation`
with context step `get_tracking_id` invokes the store's cancel operation
exactly once, with argument `"12345678"` and with no other store call (in
particular no identity-verification lookup); the returned turn result has
an empty context map, `next_state = intent_detection` and the
conversation continues. -/
theorem c5_cancellation_scenario :
    (process_message canonicalOracle ⟨2026, 10, 12⟩ "12345678" "cancellation"
        { Context.empty with step := some "get_tracking_id" } dbJohn).2.log =
      [StoreCall.cancel "12345678"]
    ∧ ((process_message canonicalOracle ⟨2026, 10, 12⟩ "12345678" "cancellation"
        { Context.empty with step := some "get_tracking_id" } dbJohn).1.map
          (fun r => (r.context, r.next_state, r.continue_conversation))) =
      some (Context.empty, "intent_detection", true) := by
  constructor
  · decide
  · decide

/-- C6 (code bug): the farewell branch of intent detection returns
`next_state = "completed"`, a value outside the eleven-state enumeration
the agent itself declares in `self.states` (ai_agent.py lines 17-29,
where the terminal state is spelled `completion`), so the claim that
every turn result's `next_state` is one of the eleven enumerated states
fails exactly on the farewell path. -/
theorem c6_farewell_state_not_enumerated :
    ((process_message canonicalOracle ⟨2026, 10, 12⟩ "thank you" "intent_detection"
        Context.empty dbJohn).1.map (fun r => r.next_state)) = some "completed"
    ∧ "completed" ∉ conversationStates := by
  constructor
  · decide
  · decide

/-- C7 (code bug): `_parse_date` maps `"today"` to the current date as
claimed, but line 743 substitutes `datetime.now()` for `"tomorrow"`
without adding a day, so `"tomorrow"` also maps to the current date
instead of the next calendar day required by the claim. -/
theorem c7_tomorrow_maps_to_current_date :
    parse_date canonicalOracle ⟨2026, 10, 12⟩ "today" = some "2026-10-12"
    ∧ parse_date canonicalOracle ⟨2026, 10, 12⟩ "tomorrow" = some "2026-10-12"
    ∧ formatDate (nextDay ⟨2026, 10, 12⟩) = "2026-10-13"
    ∧ parse_date canonicalOracle ⟨2026, 10, 12⟩ "tomorrow" ≠
        some (formatDate (nextDay ⟨2026, 10, 12⟩)) := by
  refine ⟨by decide, by decide, by decide, by decide⟩

/-- C9 (code bug): a context whose sub-step key holds a value outside the
handler's expected set makes the `booking`, `rescheduling`,
`cancellation`, `address_update` and `time_update` handlers fall off
their `elif` chains and return Python `None` — `process_message` then
returns no turn result at all, violating the four-field output
contract. -/
theorem c9_bogus_substep_returns_none :
    (process_message canonicalOracle ⟨2026, 10, 12⟩ "hello" "booking"
        { Context.empty with booking_step := some "zz" } dbJohn).1 = none
    ∧ (process_message canonicalOracle ⟨2026, 10, 12⟩ "hello" "rescheduling"
        { Context.empty with reschedule_step := some "zz" } dbJohn).1 = none
    ∧ (process_message canonicalOracle ⟨2026, 10, 12⟩ "hello" "cancellation"
        { Context.empty with step := some "zz" } dbJohn).1 = none
    ∧ (process_message canonicalOracle ⟨2026, 10, 12⟩ "hello" "address_update"
        { Context.empty with step := some "zz" } dbJohn).1 = none
    ∧ (process_message canonicalOracle ⟨2026, 10, 12⟩ "hello" "time_update"
        { Context.empty with step := some "zz" } dbJohn).1 = none := by
  refine ⟨by decide, by decide, by decide, by decide, by decide⟩

/-- Cancelling a shipment whose stored status is `cancelled` makes the
store raise the already-cancelled error, which the cancel tool converts
into a failure result carrying that message. -/
theorem cancel_tool_already_cancelled (db : DbState) (t : String) (s : Shipment)
    (hfind : findShipment db (LogisticsTools.cleanId t) = some s)
    (hst : s.status = "cancelled") :
    LogisticsTools.cancel_shipment db (some t) =
      (⟨false, none, .dbAlreadyCancelled (LogisticsTools.cleanId t)⟩,
       logCall db (.cancel (LogisticsTools.cleanId t))) := by
  unfold LogisticsTools.cancel_shipment Database.cancel_shipment
  simp [hfind, hst]

/-- C4 (counterexample): in state `cancellation` at step
`confirm_cancellation`, confirming the cancellation of an
already-cancelled shipment yields `next_state = transfer_human` with
`continue_conversation = false`, not the `intent_detection`/`true` the
claim asserts for every cancellation path. -/
theorem c4_confirm_path_counterexample :
    ((process_message canonicalOracle ⟨2026, 10, 12⟩ "yes" "cancellation"
        { Context.empty with
          step := some "confirm_cancellation",
          tracking_id := some "12345678" } dbCancelled).1.map
      (fun r => (r.next_state, r.continue_conversation))) =
      some ("transfer_human", false)
    ∧ some (("transfer_human" : String), false) ≠
        some (("intent_detection" : String), true) := by
  refine ⟨by decide, by decide⟩

/-- C4 (amended): cancelling an already-cancelled shipment through the
immediate-intent path or the `get_tracking_id` step returns the
already-cancelled error message with `next_state = intent_detection` and
`continue_conversation = true`, as the claim states; the
`confirm_cancellation` step instead returns the error with
`next_state = transfer_human` and `continue_conversation = false`.  In
every path the store's cancel operation is the single store call made. -/
theorem c4_already_cancelled_paths (db : DbState) (t : String) (s : Shipment)
    (hfind : findShipment db (LogisticsTools.cleanId t) = some s)
    (hst : s.status = "cancelled") :
    (∀ msg ctx, (strContains msg "repeat" && strContains msg "tracking") = false →
      wants_to_cancel msg = true → extract_tracking_id msg = some t →
      handle_intent_detection msg ctx db =
        (⟨.dbAlreadyCancelled (LogisticsTools.cleanId t), "intent_detection",
          Context.empty, true⟩,
         logCall db (.cancel (LogisticsTools.cleanId t))))
    ∧ (∀ msg ctx, ctx.step.getD "get_tracking_id" = "get_tracking_id" →
        extract_tracking_id msg = some t →
        handle_cancellation msg ctx db =
          (some ⟨.dbAlreadyCancelled (LogisticsTools.cleanId t), "intent_detection",
            Context.empty, true⟩,
           logCall db (.cancel (LogisticsTools.cleanId t))))
    ∧ (∀ msg ctx, ctx.step = some "confirm_cancellation" → isYes msg = true →
        ctx.tracking_id = some t →
        handle_cancellation msg ctx db =
          (some ⟨.transferSuffix (.dbAlreadyCancelled (LogisticsTools.cleanId t)),
            "transfer_human", ctx, false⟩,
           logCall db (.cancel (LogisticsTools.cleanId t)))) := by
  have htool := cancel_tool_already_cancelled db t s hfind hst
  refine ⟨?_, ?_, ?_⟩
  · intro msg ctx h1 h2 h3
    simp [handle_intent_detection, h1, h2, h3, htool]
  · intro msg ctx hstep h3
    simp [handle_cancellation, hstep, h3, htool]
  · intro msg ctx hstep hyes htid
    simp [handle_cancellation, hstep, hyes, htid, htool]

/-- C4 (witness): the amended theorem applied to the concrete cancelled
store at the confirm step. -/
theorem c4_already_cancelled_paths_witness :
    findShipment dbCancelled (LogisticsTools.cleanId "12345678") = some cancelledShipment
    ∧ handle_cancellation "yes"
        { Context.empty with
          step := some "confirm_cancellation",
          tracking_id := some "12345678" } dbCancelled =
      (some ⟨.transferSuffix (.dbAlreadyCancelled (LogisticsTools.cleanId "12345678")),
        "transfer_human",
        { Context.empty with
          step := some "confirm_cancellation",
          tracking_id := some "12345678" }, false⟩,
       logCall dbCancelled (.cancel (LogisticsTools.cleanId "12345678"))) :=
  ⟨by decide,
   (c4_already_cancelled_paths dbCancelled "12345678" cancelledShipment
      (by decide) (by decide)).2.2 "yes" _ rfl (by decide) rfl⟩

/-! ### Intent classification (C2)

The guard chain of `_handle_intent_detection` evaluates nine rules in a
fixed order.  `classify_intent` names the branch an utterance selects,
with the guards verbatim from the source chain. -/

inductive Intent where
  | repeatTracking
  | cancellation
  | tracking
  | addressUpdate
  | booking
  | rescheduling
  | timeUpdate
  | farewell
  | fallback
deriving DecidableEq

/-- The guard of each intent rule, as written in the source chain
(`fallback` is the guardless `else`). -/
def intentPred : Intent → String → Bool
  | .repeatTracking, m => strContains m "repeat" && strContains m "tracking"
  | .cancellation, m => wants_to_cancel m
  | .tracking, m => wants_to_track m
  | .addressUpdate, m => wants_to_update_address m
  | .booking, m => wants_to_book m
  | .rescheduling, m => wants_to_reschedule m
  | .timeUpdate, m => wants_to_update_time m
  | .farewell, m => isFarewell m
  | .fallback, _ => false

/-- Position of each rule in the source's `if`/`elif` chain. -/
def intentRank : Intent → Nat
  | .repeatTracking => 0
  | .cancellation => 1
  | .tracking => 2
  | .addressUpdate => 3
  | .booking => 4
  | .rescheduling => 5
  | .timeUpdate => 6
  | .farewell => 7
  | .fallback => 8

/-- The branch `_handle_intent_detection` selects: the guards in source
order (ai_agent.py lines 95, 115, 146, 161, 181, 190, 211, 231, 240). -/
def classify_intent (m : String) : Intent :=
  if intentPred .repeatTracking m then .repeatTracking
  else if intentPred .cancellation m then .cancellation
  else if intentPred .tracking m then .tracking
  else if intentPred .addressUpdate m then .addressUpdate
  else if intentPred .booking m then .booking
  else if intentPred .rescheduling m then .rescheduling
  else if intentPred .timeUpdate m then .timeUpdate
  else if intentPred .farewell m then .farewell
  else .fallback

/-- C2: intent detection evaluates its rules in the fixed precedence
order repeat-tracking, cancellation, tracking, address update, booking,
rescheduling, time update, farewell, fallback: whenever a rule's guard
holds, the selected intent is a rule at least as early; the selected
intent's own guard holds (unless every guard fails and the fallback
re-prompt is selected); and the overlapping utterance "cancel my
shipment and track it" — whose tracking guard also holds — selects
cancellation, with the handler answering from the cancellation branch
(`next_state = "cancellation"`) for every context and store. -/
theorem c2_intent_precedence :
    (∀ m i, intentPred i m = true → intentRank (classify_intent m) ≤ intentRank i)
    ∧ (∀ m, intentPred (classify_intent m) m = true ∨ classify_intent m = .fallback)
    ∧ classify_intent "cancel my shipment and track it" = .cancellation
    ∧ intentPred .tracking "cancel my shipment and track it" = true
    ∧ (∀ ctx db,
        (handle_intent_detection "cancel my shipment and track it" ctx db).1.next_state
          = "cancellation") := by
  refine ⟨?_, ?_, by decide, by decide, ?_⟩
  · intro m i h
    unfold classify_intent
    split_ifs with h1 h2 h3 h4 h5 h6 h7 h8 <;> cases i <;>
      try simp_all [intentPred, intentRank]
  · intro m
    unfold classify_intent
    split_ifs with h1 h2 h3 h4 h5 h6 h7 h8 <;> simp_all [intentPred]
  · intro ctx db
    have h1 : (strContains "cancel my shipment and track it" "repeat"
        && strContains "cancel my shipment and track it" "tracking") = false := by decide
    have h2 : wants_to_cancel "cancel my shipment and track it" = true := by decide
    have h3 : extract_tracking_id "cancel my shipment and track it" = none := by decide
    simp [handle_intent_detection, h1, h2, h3]

/-- C2 (witness): the precedence statement applied to the overlapping
utterance and the tracking rule. -/
theorem c2_intent_precedence_witness :
    intentPred .tracking "cancel my shipment and track it" = true
    ∧ intentRank (classify_intent "cancel my shipment and track it") ≤
        intentRank .tracking :=
  ⟨by decide,
   c2_intent_precedence.1 "cancel my shipment and track it" .tracking (by decide)⟩

/-- C3: for a stored shipment, identity verification succeeds exactly
when the lower-cased spoken name and the lower-cased stored customer
name contain one another in either direction (the tool also strips the
spoken name, which is the identity on names without flanking whitespace
— and the orchestrator strips every utterance before any handler runs);
and on a non-match the identity-verification turn returns
`next_state = transfer_human` with `continue_conversation = false`,
offering no second attempt. -/
theorem c3_identity_verification (db : DbState) (spoken tid : String) (s : Shipment)
    (hfind : findShipment db (LogisticsTools.cleanId tid) = some s)
    (hnows : pyStrip (pyLower spoken) = pyLower spoken) :
    (LogisticsTools.verify_customer_identity db spoken tid).1.success = true
    ∧ ((LogisticsTools.verify_customer_identity db spoken tid).1.verified =
        (strContains (pyLower s.customer_name) (pyLower spoken)
          || strContains (pyLower spoken) (pyLower s.customer_name)))
    ∧ ((strContains (pyLower s.customer_name) (pyLower spoken)
          || strContains (pyLower spoken) (pyLower s.customer_name)) = false →
        ∀ ctx, ctx.tracking_id = some tid →
          handle_identity_verification spoken ctx db =
            (⟨.nameMismatch, "transfer_human", ctx, false⟩,
             logCall db (.get (LogisticsTools.cleanId tid)))) := by
  have htool : LogisticsTools.verify_customer_identity db spoken tid =
      (if strContains (pyLower s.customer_name) (pyStrip (pyLower spoken))
          || strContains (pyStrip (pyLower spoken)) (pyLower s.customer_name)
       then (⟨true, true, .identityVerified s.customer_name⟩,
         logCall db (.get (LogisticsTools.cleanId tid)))
       else (⟨true, false, .nameMismatch⟩,
         logCall db (.get (LogisticsTools.cleanId tid)))) := by
    unfold LogisticsTools.verify_customer_identity Database.get_shipment
    simp [hfind]
  rw [hnows] at htool
  refine ⟨?_, ?_, ?_⟩
  · rw [htool]
    split <;> rfl
  · cases hcond : (strContains (pyLower s.customer_name) (pyLower spoken)
        || strContains (pyLower spoken) (pyLower s.customer_name)) <;>
      simp [htool, hcond]
  · intro hfalse ctx hctx
    have htool2 : LogisticsTools.verify_customer_identity db spoken tid =
        (⟨true, false, .nameMismatch⟩,
         logCall db (.get (LogisticsTools.cleanId tid))) := by
      rw [htool, hfalse]
      simp
    unfold handle_identity_verification
    rw [hctx]
    simp only [htool2]
    rfl

/-- C3 (witness): "john" verifies against the stored "John Smith";
"mary" does not and is routed to `transfer_human` with
`continue_conversation = false`. -/
theorem c3_identity_verification_witness :
    pyStrip (pyLower "john") = pyLower "john"
    ∧ (LogisticsTools.verify_customer_identity dbJohn "john" "12345678").1.verified = true
    ∧ handle_identity_verification "mary"
        { Context.empty with tracking_id := some "12345678" } dbJohn =
      (⟨.nameMismatch, "transfer_human",
        { Context.empty with tracking_id := some "12345678" }, false⟩,
       logCall dbJohn (.get (LogisticsTools.cleanId "12345678"))) := by
  refine ⟨by decide, ?_, ?_⟩
  · have h := (c3_identity_verification dbJohn "john" "12345678" johnShipment
      (by decide) (by decide)).2.1
    rw [h]
    decide
  · exact (c3_identity_verification dbJohn "mary" "12345678" johnShipment
      (by decide) (by decide)).2.2 (by decide) _ rfl

end SwiftLogisticsAgent

/-! ### Shipment lookup with trailing-digit recovery (C1) -/

/-- An 8-character all-decimal-digit string: the shape of every tracking
identifier the store holds (spec §3's ShipmentRecord invariant). -/
def isDigit8 (x : String) : Bool := x.length == 8 && x.toList.all Char.isDigit

/-- The two-character suffix `0k` for a digit `k`. -/
def sfx (k : Nat) : String := String.mk ['0', Char.ofNat (48 + k)]

theorem findShipment_logCall (db : DbState) (c : StoreCall) (t : String) :
    findShipment (logCall db c) t = findShipment db t := rfl

/-- The recovery loop returns the first suffix (in list order) whose
variant identifier is in the store. -/
theorem tryVariants_fst (base : String) :
    ∀ (l : List String) (db : DbState),
      (LogisticsTools.tryVariants db base l).1 =
        l.findSome? (fun sf =>
          (findShipment db (base ++ sf)).map (fun s => (base ++ sf, s))) := by
  intro l
  induction l with
  | nil => intro db; rfl
  | cons a rest ih =>
    intro db
    unfold LogisticsTools.tryVariants
    cases hfs : findShipment db (base ++ a) with
    | some s =>
      simp [Database.get_shipment, hfs, List.findSome?]
    | none =>
      simp [Database.get_shipment, hfs, List.findSome?, ih, findShipment_logCall]

theorem findSome?_all_none {α β : Type} (f : α → Option β) (dflt : α) :
    ∀ (l : List α), (∀ j, j < l.length → f (l.getD j dflt) = none) →
      l.findSome? f = none := by
  intro l
  induction l with
  | nil => intro; rfl
  | cons a rest ih =>
    intro h
    have h0 := h 0 (by simp)
    simp only [List.getD_cons_zero] at h0
    simp only [List.findSome?, h0]
    exact ih (fun j hj => by
      have := h (j + 1) (by simpa using Nat.succ_lt_succ hj)
      simpa using this)

theorem findSome?_first {α β : Type} (f : α → Option β) (dflt : α) :
    ∀ (l : List α) (k : Nat), k < l.length → f (l.getD k dflt) ≠ none →
      (∀ j, j < k → f (l.getD j dflt) = none) →
      l.findSome? f = f (l.getD k dflt) := by
  intro l
  induction l with
  | nil => intro k hk; exact absurd hk (by simp)
  | cons a rest ih =>
    intro k hk hsome hmin
    cases k with
    | zero =>
      simp only [List.getD_cons_zero] at hsome ⊢
      cases hfa : f a with
      | none => exact absurd hfa hsome
      | some b => simp [List.findSome?, hfa]
    | succ k' =>
      have h0 := hmin 0 (by omega)
      simp only [List.getD_cons_zero] at h0
      simp only [List.findSome?, h0, List.getD_cons_succ] at *
      exact ih k' (by simpa using Nat.lt_of_succ_lt_succ hk) hsome
        (fun j hj => by
          have := hmin (j + 1) (by omega)
          simpa using this)

/-- The nine suffixes, indexed: position `k - 1` holds `sfx k`. -/
theorem variantSuffixes_getD (k : Nat) (h1 : 1 ≤ k) (h9 : k ≤ 9) :
    LogisticsTools.variantSuffixes.getD (k - 1) "" = sfx k := by
  interval_cases k <;> decide

/-- An identifier ending in `00` splits as its first part followed by
two zero characters. -/
theorem endsWith00_split (c : String) (h : strEndsWith c "00" = true) :
    ∃ rs, c.toList.reverse = '0' :: '0' :: rs := by
  unfold strEndsWith at h
  match hrl : c.toList.reverse with
  | [] => rw [hrl] at h; simp [prefixChars] at h
  | [b] => rw [hrl] at h; simp [prefixChars] at h
  | b :: b2 :: bs =>
    rw [hrl] at h
    simp only [String.toList, prefixChars, Bool.and_eq_true, beq_iff_eq] at h
    obtain ⟨hb, hb2, -⟩ := h
    exact ⟨bs, by rw [← hb, ← hb2]⟩

/-- When the identifier contains a non-digit, so does every recovery
variant built from its first six characters, because the two dropped
characters are the zeros. -/
theorem variant_not_digit8 (c : String) (x : String)
    (hnd : c.toList.all Char.isDigit = false)
    (h00 : strEndsWith c "00" = true) :
    isDigit8 (LogisticsTools.dropLastTwo c ++ x) = false := by
  obtain ⟨rs, hrev⟩ := endsWith00_split c h00
  have hl : c.toList = rs.reverse ++ ['0', '0'] := by
    have := congrArg List.reverse hrev
    simpa using this
  have hdrop : (LogisticsTools.dropLastTwo c).toList = rs.reverse := by
    unfold LogisticsTools.dropLastTwo
    show (c.toList.dropLast.dropLast) = rs.reverse
    rw [hl]
    have : rs.reverse ++ ['0', '0'] = (rs.reverse ++ ['0']) ++ ['0'] := by simp
    rw [this, List.dropLast_concat, List.dropLast_concat]
  have hrs : rs.reverse.all Char.isDigit = false := by
    rw [hl] at hnd
    simpa using hnd
  unfold isDigit8
  have happ : (LogisticsTools.dropLastTwo c ++ x).toList =
      (LogisticsTools.dropLastTwo c).toList ++ x.toList := rfl
  rw [happ, hdrop]
  simp [List.all_append, hrs]

/-- A store whose identifiers are all 8-digit strings never holds a
non-8-digit identifier. -/
theorem findShipment_none_of_not_digit8 (db : DbState)
    (hkeys : ∀ s ∈ db.shipments, isDigit8 s.tracking_id = true)
    (v : String) (hv : isDigit8 v = false) : findShipment db v = none := by
  unfold findShipment
  cases hfind : db.shipments.find? (fun s => s.tracking_id == v) with
  | none => rfl
  | some s =>
    exfalso
    have hmem : s ∈ db.shipments := List.mem_of_find?_eq_some hfind
    have heq := List.find?_some hfind
    simp only [beq_iff_eq] at heq
    have := hkeys s hmem
    rw [heq] at this
    rw [this] at hv
    cases hv

namespace SwiftLogisticsAgent

/-- C1: shipment lookup is by the cleaned identifier verbatim first; when
that misses, exactly the 8-digit identifiers ending in `00` (relative to
a store whose identifiers are 8-digit numeric strings, spec §3) trigger
the recovery that tries the `01`..`09` suffix variants in ascending
numeric order and returns the first existing one; when no variant exists,
or the identifier is not an 8-digit string ending in `00`, lookup reports
not-found. -/
theorem c1_lookup_with_variant_recovery (db : DbState) (t : String)
    (hkeys : ∀ s ∈ db.shipments, isDigit8 s.tracking_id = true) :
    (∀ s, findShipment db (LogisticsTools.cleanId t) = some s →
      (LogisticsTools.get_shipment db t).1 =
        LogisticsTools.mkGetSuccess (LogisticsTools.cleanId t) s)
    ∧ (findShipment db (LogisticsTools.cleanId t) = none →
        ¬(isDigit8 (LogisticsTools.cleanId t) = true
            ∧ strEndsWith (LogisticsTools.cleanId t) "00" = true) →
        (LogisticsTools.get_shipment db t).1 =
          ⟨false, none, .toolNotFound (LogisticsTools.cleanId t)⟩)
    ∧ (findShipment db (LogisticsTools.cleanId t) = none →
        isDigit8 (LogisticsTools.cleanId t) = true →
        strEndsWith (LogisticsTools.cleanId t) "00" = true →
        ((∀ k, 1 ≤ k → k ≤ 9 →
            findShipment db
              (LogisticsTools.dropLastTwo (LogisticsTools.cleanId t) ++ sfx k) = none) →
          (LogisticsTools.get_shipment db t).1 =
            ⟨false, none, .toolNotFound (LogisticsTools.cleanId t)⟩)
        ∧ (∀ k s, 1 ≤ k → k ≤ 9 →
            findShipment db
              (LogisticsTools.dropLastTwo (LogisticsTools.cleanId t) ++ sfx k) = some s →
            (∀ j, 1 ≤ j → j < k →
              findShipment db
                (LogisticsTools.dropLastTwo (LogisticsTools.cleanId t) ++ sfx j) = none) →
            (LogisticsTools.get_shipment db t).1 =
              LogisticsTools.mkGetSuccess
                (LogisticsTools.dropLastTwo (LogisticsTools.cleanId t) ++ sfx k) s)) := by
  refine ⟨?_, ?_, ?_⟩
  · intro s hfind
    unfold LogisticsTools.get_shipment
    simp [Database.get_shipment, hfind]
  · intro hnone hnotc
    unfold LogisticsTools.get_shipment
    cases hct : (strEndsWith (LogisticsTools.cleanId t) "00"
        && (LogisticsTools.cleanId t).length == 8) with
    | false => simp [Database.get_shipment, hnone, hct]
    | true =>
      rw [Bool.and_eq_true] at hct
      obtain ⟨h00, h8⟩ := hct
      have hnd : (LogisticsTools.cleanId t).toList.all Char.isDigit = false := by
        cases hall : (LogisticsTools.cleanId t).toList.all Char.isDigit with
        | false => rfl
        | true =>
          exact absurd ⟨by unfold isDigit8; rw [h8, hall]; rfl, h00⟩ hnotc
      have hvars : (LogisticsTools.tryVariants (logCall db
          (.get (LogisticsTools.cleanId t)))
          (LogisticsTools.dropLastTwo (LogisticsTools.cleanId t))
          LogisticsTools.variantSuffixes).1 = none := by
        rw [tryVariants_fst]
        refine findSome?_all_none _ "" _ ?_
        intro j hj
        rw [findShipment_logCall,
          findShipment_none_of_not_digit8 db hkeys _
            (variant_not_digit8 (LogisticsTools.cleanId t) _ hnd h00)]
        rfl
      rcases htv : LogisticsTools.tryVariants (logCall db
          (.get (LogisticsTools.cleanId t)))
          (LogisticsTools.dropLastTwo (LogisticsTools.cleanId t))
          LogisticsTools.variantSuffixes with ⟨res, db2⟩
      have hres : res = none := by rw [← hvars, htv]
      subst hres
      simp [Database.get_shipment, hnone, h00, h8, htv]
  · intro hnone hd8 h00
    have h8 : ((LogisticsTools.cleanId t).length == 8) = true := by
      unfold isDigit8 at hd8
      rw [Bool.and_eq_true] at hd8
      exact hd8.1
    constructor
    · intro hallnone
      have hvars : (LogisticsTools.tryVariants (logCall db
          (.get (LogisticsTools.cleanId t)))
          (LogisticsTools.dropLastTwo (LogisticsTools.cleanId t))
          LogisticsTools.variantSuffixes).1 = none := by
        rw [tryVariants_fst]
        refine findSome?_all_none _ "" _ ?_
        intro j hj
        have hlen : LogisticsTools.variantSuffixes.length = 9 := rfl
        rw [hlen] at hj
        have hg := variantSuffixes_getD (j + 1) (by omega) (by omega)
        have : j + 1 - 1 = j := by omega
        rw [this] at hg
        rw [findShipment_logCall, hg, hallnone (j + 1) (by omega) (by omega)]
        rfl
      unfold LogisticsTools.get_shipment
      rcases htv : LogisticsTools.tryVariants (logCall db
          (.get (LogisticsTools.cleanId t)))
          (LogisticsTools.dropLastTwo (LogisticsTools.cleanId t))
          LogisticsTools.variantSuffixes with ⟨res, db2⟩
      have hres : res = none := by rw [← hvars, htv]
      subst hres
      simp [Database.get_shipment, hnone, h00, h8, htv]
    · intro k s hk1 hk9 hsome hmin
      have hvars : (LogisticsTools.tryVariants (logCall db
          (.get (LogisticsTools.cleanId t)))
          (LogisticsTools.dropLastTwo (LogisticsTools.cleanId t))
          LogisticsTools.variantSuffixes).1 =
          some (LogisticsTools.dropLastTwo (LogisticsTools.cleanId t) ++ sfx k, s) := by
        rw [tryVariants_fst]
        have hlen : LogisticsTools.variantSuffixes.length = 9 := rfl
        have hg := variantSuffixes_getD k hk1 hk9
        rw [findSome?_first _ "" _ (k - 1) (by omega)
          (by
            rw [findShipment_logCall, hg, hsome]
            simp)
          (fun j hj => by
            have hgj := variantSuffixes_getD (j + 1) (by omega) (by omega)
            have hjj : j + 1 - 1 = j := by omega
            rw [hjj] at hgj
            rw [findShipment_logCall, hgj, hmin (j + 1) (by omega) (by omega)]
            rfl)]
        rw [findShipment_logCall, hg, hsome]
        rfl
      unfold LogisticsTools.get_shipment
      rcases htv : LogisticsTools.tryVariants (logCall db
          (.get (LogisticsTools.cleanId t)))
          (LogisticsTools.dropLastTwo (LogisticsTools.cleanId t))
          LogisticsTools.variantSuffixes with ⟨res, db2⟩
      have hres : res =
          some (LogisticsTools.dropLastTwo (LogisticsTools.cleanId t) ++ sfx k, s) := by
        rw [← hvars, htv]
      subst hres
      simp [Database.get_shipment, hnone, h00, h8, htv]

/-- C1 (witness): a store holding `12345603` for a lookup of
`12345600`: the verbatim lookup misses, the claim's trigger holds, and
the lookup returns the `03` variant, with the `01` and `02` variants
absent. -/
theorem c1_lookup_with_variant_recovery_witness :
    findShipment (DbState.mk [⟨"12345603", "Jane Doe", "1 A St, Town, ST",
        "2 B St, City, ST", "2025-12-20", "booked"⟩] "87654321" [])
      (LogisticsTools.cleanId "12345600") = none
    ∧ (LogisticsTools.get_shipment
        (DbState.mk [⟨"12345603", "Jane Doe", "1 A St, Town, ST",
          "2 B St, City, ST", "2025-12-20", "booked"⟩] "87654321" []) "12345600").1 =
      LogisticsTools.mkGetSuccess
        (LogisticsTools.dropLastTwo (LogisticsTools.cleanId "12345600") ++ sfx 3)
        ⟨"12345603", "Jane Doe", "1 A St, Town, ST",
          "2 B St, City, ST", "2025-12-20", "booked"⟩ :=
  ⟨by decide,
   ((c1_lookup_with_variant_recovery
      (DbState.mk [⟨"12345603", "Jane Doe", "1 A St, Town, ST",
        "2 B St, City, ST", "2025-12-20", "booked"⟩] "87654321" [])
      "12345600"
      (by decide)).2.2 (by decide) (by decide) (by decide)).2 3
      ⟨"12345603", "Jane Doe", "1 A St, Town, ST",
        "2 B St, City, ST", "2025-12-20", "booked"⟩
      (by decide) (by decide) (by decide)
      (fun j hj1 hjk => by interval_cases j <;> decide)⟩

/-! ### The continue flag / terminal state invariant (C10) -/

/-- The invariant of C10: a turn result ends the call exactly when it
lands in `transfer_human` or in the farewell terminal literal
`"completed"` (the string the farewell branch returns). -/
abbrev continueInvariant (r : TurnResult) : Prop :=
  r.continue_conversation = false ↔
    (r.next_state = "transfer_human" ∨ r.next_state = "completed")

/-- The invariant lifted to a handler's optional result. -/
abbrev obeysInv : Option TurnResult × DbState → Prop
  | (some r, _) => continueInvariant r
  | (none, _) => True

theorem tracking_inv (m : String) (c : Context) (d : DbState) :
    continueInvariant (handle_tracking m c d).1 := by
  unfold handle_tracking
  repeat' split
  all_goals simp [continueInvariant]

theorem intent_inv (m : String) (c : Context) (d : DbState) :
    continueInvariant (handle_intent_detection m c d).1 := by
  unfold handle_intent_detection
  repeat' split
  all_goals first
    | (simp [continueInvariant]; done)
    | apply tracking_inv

theorem identity_inv (m : String) (c : Context) (d : DbState) :
    continueInvariant (handle_identity_verification m c d).1 := by
  unfold handle_identity_verification
  repeat' split
  all_goals simp [continueInvariant]

theorem cancellation_inv (m : String) (c : Context) (d : DbState)
    (r' : TurnResult) (db' : DbState)
    (heq : handle_cancellation m c d = (some r', db')) : continueInvariant r' := by
  unfold handle_cancellation at heq
  repeat' split at heq
  all_goals simp at heq
  all_goals (obtain ⟨h1, h2⟩ := heq; subst h1; simp [continueInvariant])

theorem address_inv (m : String) (c : Context) (d : DbState)
    (r' : TurnResult) (db' : DbState)
    (heq : handle_address_update m c d = (some r', db')) : continueInvariant r' := by
  unfold handle_address_update at heq
  repeat' split at heq
  all_goals simp at heq
  all_goals (obtain ⟨h1, h2⟩ := heq; subst h1; simp [continueInvariant])

theorem time_inv (o : DateOracle) (n : Date) (m : String) (c : Context) (d : DbState)
    (r' : TurnResult) (db' : DbState)
    (heq : handle_time_update o n m c d = (some r', db')) : continueInvariant r' := by
  unfold handle_time_update at heq
  repeat' split at heq
  all_goals simp at heq
  all_goals (obtain ⟨h1, h2⟩ := heq; subst h1; simp [continueInvariant])

theorem booking_inv (o : DateOracle) (n : Date) (m : String) (c : Context) (d : DbState)
    (r' : TurnResult) (db' : DbState)
    (heq : handle_booking o n m c d = .ok (some r', db')) : continueInvariant r' := by
  unfold handle_booking at heq
  repeat' split at heq
  all_goals simp at heq
  all_goals (obtain ⟨h1, h2⟩ := heq; subst h1; simp [continueInvariant])

theorem rescheduling_inv (o : DateOracle) (n : Date) (m : String) (c : Context)
    (d : DbState) (r' : TurnResult) (db' : DbState)
    (heq : handle_rescheduling o n m c d = .ok (some r', db')) : continueInvariant r' := by
  unfold handle_rescheduling at heq
  repeat' split at heq
  all_goals simp at heq
  all_goals (obtain ⟨h1, h2⟩ := heq; subst h1; simp [continueInvariant])

theorem process_obeys_inv (oracle : DateOracle) (now : Date)
    (um st : String) (ctx : Context) (db : DbState) :
    obeysInv (process_message oracle now um st ctx db) := by
  unfold process_message
  split
  · show continueInvariant transfer_to_human
    decide
  split
  · rcases hh : handle_intent_detection (pyStrip (pyLower um)) ctx db with ⟨r', db'⟩
    exact hh ▸ intent_inv _ _ _
  split
  · rcases hh : handle_intent_detection (pyStrip (pyLower um)) ctx db with ⟨r', db'⟩
    exact hh ▸ intent_inv _ _ _
  split
  · rcases hh : handle_tracking (pyStrip (pyLower um)) ctx db with ⟨r', db'⟩
    exact hh ▸ tracking_inv _ _ _
  split
  · rcases hh : handle_booking oracle now (pyStrip (pyLower um)) ctx db with
      e | ⟨_ | r', db'⟩
    · simp [obeysInv, continueInvariant]
    · trivial
    · exact booking_inv _ _ _ _ _ _ _ hh
  split
  · rcases hh : handle_rescheduling oracle now (pyStrip (pyLower um)) ctx db with
      e | ⟨_ | r', db'⟩
    · simp [obeysInv, continueInvariant]
    · trivial
    · exact rescheduling_inv _ _ _ _ _ _ _ hh
  split
  · rcases hh : handle_cancellation (pyStrip (pyLower um)) ctx db with ⟨_ | r', db'⟩
    · trivial
    · exact cancellation_inv _ _ _ _ _ hh
  split
  · rcases hh : handle_address_update (pyStrip (pyLower um)) ctx db with ⟨_ | r', db'⟩
    · trivial
    · exact address_inv _ _ _ _ _ hh
  split
  · rcases hh : handle_time_update oracle now (pyStrip (pyLower um)) ctx db with
      ⟨_ | r', db'⟩
    · trivial
    · exact time_inv _ _ _ _ _ _ _ hh
  split
  · rcases hh : handle_identity_verification (pyStrip (pyLower um)) ctx db with ⟨r', db'⟩
    exact hh ▸ identity_inv _ _ _
  · rcases hh : handle_intent_detection (pyStrip (pyLower um)) ctx db with ⟨r', db'⟩
    exact hh ▸ intent_inv _ _ _

/-- C10: whenever `process_message` returns a turn result,
`continue_conversation` is `false` exactly when `next_state` is the
human-transfer state or the farewell terminal state (the literal
`"completed"` the farewell branch emits); results in every other state
carry `continue_conversation = true` — over every utterance, state,
context, store and date oracle. -/
theorem c10_continue_iff_terminal (oracle : DateOracle) (now : Date)
    (um st : String) (ctx : Context) (db : DbState) (r : TurnResult) (db2 : DbState)
    (h : process_message oracle now um st ctx db = (some r, db2)) :
    r.continue_conversation = false ↔
      (r.next_state = "transfer_human" ∨ r.next_state = "completed") := by
  have hp := process_obeys_inv oracle now um st ctx db
  rw [h] at hp
  exact hp

/-- C10 (witness): the interrupt path on a concrete utterance. -/
theorem c10_continue_iff_terminal_witness :
    process_message canonicalOracle ⟨2026, 10, 12⟩ "operator" "greeting"
      Context.empty dbJohn = (some transfer_to_human, dbJohn)
    ∧ (transfer_to_human.continue_conversation = false ↔
        (transfer_to_human.next_state = "transfer_human"
          ∨ transfer_to_human.next_state = "completed")) :=
  ⟨by decide,
   c10_continue_iff_terminal canonicalOracle ⟨2026, 10, 12⟩ "operator" "greeting"
     Context.empty dbJohn transfer_to_human dbJohn (by decide)⟩

/-! ### Tracking-ID extractor correctness (C8)

The specification side: a "word-boundary-delimited run of 7 or 8 decimal
digits" inside the scanned text, expressed as a split `pre ++ run ++ post`
with boundary conditions on the characters adjacent to the run. -/

/-- The character governing the `\b` before a position reached after
consuming `pre`, given the character (if any) preceding the whole
text. -/
def prevAt (prev : Option Char) (pre : List Char) : Option Char :=
  match pre.getLast? with
  | some c => some c
  | none => prev

/-- `run` is a word-boundary-delimited run of 7 or 8 decimal digits
occurring in `l` after the prefix `pre` (with `prev` the character
preceding `l`, `none` at the start of the utterance). -/
def RunAt (prev : Option Char) (l pre run post : List Char) : Prop :=
  l = pre ++ run ++ post ∧ (run.length = 7 ∨ run.length = 8)
    ∧ run.all isDigitChar = true
    ∧ boundaryBefore (prevAt prev pre) = true
    ∧ headNonWord post = true

theorem takeDigits_eq_some : ∀ (n : Nat) (l d rest : List Char),
    takeDigits n l = some (d, rest) →
    l = d ++ rest ∧ d.length = n ∧ d.all isDigitChar = true := by
  intro n
  induction n with
  | zero =>
    intro l d rest h
    unfold takeDigits at h
    simp only [Option.some.injEq, Prod.mk.injEq] at h
    obtain ⟨h1, h2⟩ := h
    subst h1
    subst h2
    simp
  | succ n ih =>
    intro l d rest h
    cases l with
    | nil => simp [takeDigits] at h
    | cons c cs =>
      unfold takeDigits at h
      cases hc : isDigitChar c with
      | false => rw [hc] at h; simp at h
      | true =>
        rw [hc] at h
        simp only [if_true] at h
        cases htd : takeDigits n cs with
        | none => rw [htd] at h; simp at h
        | some pr =>
          rcases pr with ⟨d', r'⟩
          rw [htd] at h
          simp only [Option.some.injEq, Prod.mk.injEq] at h
          obtain ⟨h1, h2⟩ := h
          obtain ⟨ih1, ih2, ih3⟩ := ih cs d' r' htd
          subst h1
          subst h2
          simp [ih1, ih2, ih3, hc]

theorem takeDigits_append : ∀ (d rest : List Char), d.all isDigitChar = true →
    takeDigits d.length (d ++ rest) = some (d, rest) := by
  intro d
  induction d with
  | nil => intro rest _; rfl
  | cons c d' ih =>
    intro rest h
    simp only [List.all_cons, Bool.and_eq_true] at h
    obtain ⟨hc, hd⟩ := h
    show takeDigits (d'.length + 1) (c :: (d' ++ rest)) = _
    unfold takeDigits
    simp [hc, ih rest hd]

/-- Taking one digit more than an all-digit run consumes the run and then
demands one further digit from `post`. -/
theorem takeDigits_run_succ : ∀ (run : List Char), run.all isDigitChar = true →
    ∀ (post : List Char),
      takeDigits (run.length + 1) (run ++ post) =
        match post with
        | [] => none
        | x :: rest => if isDigitChar x then some (run ++ [x], rest) else none := by
  intro run
  induction run with
  | nil =>
    intro _ post
    cases post with
    | nil => rfl
    | cons x rest =>
      show takeDigits 1 (x :: rest) = _
      unfold takeDigits
      cases hx : isDigitChar x <;> simp [hx, takeDigits]
  | cons c run' ih =>
    intro h post
    simp only [List.all_cons, Bool.and_eq_true] at h
    obtain ⟨hc, hr⟩ := h
    show takeDigits (run'.length + 1 + 1) (c :: (run' ++ post)) = _
    unfold takeDigits
    rw [ih hr post]
    cases post with
    | nil => simp [hc]
    | cons x rest => cases hx : isDigitChar x <;> simp [hc, hx]

theorem isWordChar_of_digit (c : Char) (h : isDigitChar c = true) :
    SwiftLogisticsAgent.isWordChar c = true := by
  unfold isDigitChar at h
  unfold SwiftLogisticsAgent.isWordChar
  simp [Char.isAlphanum, h]

/-- If `tryMatchAt` matches, the match is a digit run of length 7 or 8
followed by a non-word character (or the end). -/
theorem tryMatchAt_some {l d : List Char}
    (h : SwiftLogisticsAgent.tryMatchAt l = some d) :
    ∃ post, l = d ++ post ∧ (d.length = 7 ∨ d.length = 8)
      ∧ d.all isDigitChar = true
      ∧ SwiftLogisticsAgent.headNonWord post = true := by
  unfold SwiftLogisticsAgent.tryMatchAt at h
  split at h
  · rename_i d8 rest heq8
    split at h
    · rename_i hw
      simp only [Option.some.injEq] at h
      subst h
      obtain ⟨hl, hlen, hall⟩ := takeDigits_eq_some 8 _ _ _ heq8
      exact ⟨rest, hl, Or.inr hlen, hall, hw⟩
    · split at h
      · rename_i d7 r7 heq7
        split at h
        · rename_i hw7
          simp only [Option.some.injEq] at h
          subst h
          obtain ⟨hl, hlen, hall⟩ := takeDigits_eq_some 7 _ _ _ heq7
          exact ⟨r7, hl, Or.inl hlen, hall, hw7⟩
        · simp at h
      · simp at h
  · split at h
    · rename_i d7 r7 heq7
      split at h
      · rename_i hw7
        simp only [Option.some.injEq] at h
        subst h
        obtain ⟨hl, hlen, hall⟩ := takeDigits_eq_some 7 _ _ _ heq7
        exact ⟨r7, hl, Or.inl hlen, hall, hw7⟩
      · simp at h
    · simp at h

/-- At a position opening a boundary-delimited digit run, `tryMatchAt`
returns exactly that run (a 7-run and an 8-run cannot start at the same
position, since the 7-run's closing boundary forbids an eighth digit). -/
theorem tryMatchAt_run_eq (run post : List Char)
    (hlen : run.length = 7 ∨ run.length = 8) (hd : run.all isDigitChar = true)
    (hp : SwiftLogisticsAgent.headNonWord post = true) :
    SwiftLogisticsAgent.tryMatchAt (run ++ post) = some run := by
  unfold SwiftLogisticsAgent.tryMatchAt
  rcases hlen with h7 | h8
  · have h8n : takeDigits 8 (run ++ post) = none := by
      have hstep := takeDigits_run_succ run hd post
      rw [h7] at hstep
      rw [hstep]
      cases post with
      | nil => rfl
      | cons x rest =>
        have hx : isDigitChar x = false := by
          cases hdx : isDigitChar x with
          | false => rfl
          | true =>
            have hw := isWordChar_of_digit x hdx
            simp [SwiftLogisticsAgent.headNonWord, hw] at hp
        simp [hx]
    have h7eq : takeDigits 7 (run ++ post) = some (run, post) := by
      have := takeDigits_append run post hd
      rw [h7] at this
      exact this
    simp [h8n, h7eq, hp]
  · have h8eq : takeDigits 8 (run ++ post) = some (run, post) := by
      have := takeDigits_append run post hd
      rw [h8] at this
      exact this
    simp [h8eq, hp]

theorem prevAt_cons (prev : Option Char) (c : Char) (pre : List Char) :
    prevAt prev (c :: pre) = prevAt (some c) pre := by
  cases pre with
  | nil => rfl
  | cons q rest =>
    unfold prevAt
    rw [List.getLast?_cons_cons]
    cases hq : (q :: rest).getLast? with
    | some a => rfl
    | none =>
      have hne : (q :: rest).getLast?.isSome := by
        rw [List.getLast?_isSome]
        simp
      rw [hq] at hne
      simp at hne

theorem runAt_nil_pre {prev : Option Char} {c : Char} {cs run post : List Char} :
    RunAt prev (c :: cs) [] run post ↔
      (c :: cs = run ++ post ∧ (run.length = 7 ∨ run.length = 8)
        ∧ run.all isDigitChar = true
        ∧ SwiftLogisticsAgent.boundaryBefore prev = true
        ∧ SwiftLogisticsAgent.headNonWord post = true) := by
  unfold RunAt prevAt
  simp

theorem runAt_cons_pre {prev : Option Char} {c : Char} {cs pre run post : List Char} :
    RunAt prev (c :: cs) (c :: pre) run post ↔ RunAt (some c) cs pre run post := by
  unfold RunAt
  rw [prevAt_cons]
  constructor
  · rintro ⟨heq, h2, h3, h4, h5⟩
    refine ⟨?_, h2, h3, h4, h5⟩
    simpa using heq
  · rintro ⟨heq, h2, h3, h4, h5⟩
    exact ⟨by simp [heq], h2, h3, h4, h5⟩

theorem runAt_pre_shape {prev : Option Char} {c : Char} {cs pre run post : List Char}
    (h : RunAt prev (c :: cs) pre run post) :
    pre = [] ∨ ∃ pre', pre = c :: pre' := by
  obtain ⟨heq, -, -, -, -⟩ := h
  cases pre with
  | nil => exact Or.inl rfl
  | cons p pre' =>
    right
    simp only [List.cons_append, List.cons.injEq] at heq
    exact ⟨pre', by rw [heq.1]⟩

/-- The scanner of `_extract_tracking_id`: it returns `none` exactly when
no boundary-delimited 7-8 digit run occurs, and otherwise returns the run
with the shortest prefix — the first such run. -/
theorem searchRun_correct : ∀ (l : List Char) (prev : Option Char),
    (SwiftLogisticsAgent.searchRun prev l = none →
      ∀ pre run post, ¬ RunAt prev l pre run post)
    ∧ (∀ d, SwiftLogisticsAgent.searchRun prev l = some d →
        ∃ pre post, RunAt prev l pre d post ∧
          ∀ pre' run' post', RunAt prev l pre' run' post' →
            pre.length ≤ pre'.length) := by
  intro l
  induction l with
  | nil =>
    intro prev
    constructor
    · intro _ pre run post hr
      obtain ⟨heq, hlen, -, -, -⟩ := hr
      obtain ⟨h1, -⟩ := List.append_eq_nil.mp heq.symm
      obtain ⟨-, hrun⟩ := List.append_eq_nil.mp h1
      rw [hrun] at hlen
      simp at hlen
    · intro d h
      simp [SwiftLogisticsAgent.searchRun] at h
  | cons c cs ih =>
    intro prev
    unfold SwiftLogisticsAgent.searchRun
    by_cases hb : SwiftLogisticsAgent.boundaryBefore prev = true
    · rw [if_pos hb]
      cases hm : SwiftLogisticsAgent.tryMatchAt (c :: cs) with
      | some d0 =>
        constructor
        · intro h
          simp at h
        · intro d h
          have hd : d0 = d := by simpa using h
          subst hd
          obtain ⟨post, hl, hlen, hall, hp⟩ := tryMatchAt_some hm
          refine ⟨[], post, runAt_nil_pre.mpr ⟨hl, hlen, hall, hb, hp⟩, ?_⟩
          intro pre' run' post' _
          simp
      | none =>
        have noPreRun : ∀ run post, ¬ RunAt prev (c :: cs) [] run post := by
          intro run post hr
          obtain ⟨hl, hlen, hall, -, hp⟩ := runAt_nil_pre.mp hr
          rw [hl, tryMatchAt_run_eq run post hlen hall hp] at hm
          simp at hm
        constructor
        · intro h pre run post hr
          rcases runAt_pre_shape hr with rfl | ⟨pre', rfl⟩
          · exact noPreRun _ _ hr
          · exact (ih (some c)).1 h pre' run post (runAt_cons_pre.mp hr)
        · intro d h
          obtain ⟨pre0, post0, hr0, hmin⟩ := (ih (some c)).2 d h
          refine ⟨c :: pre0, post0, runAt_cons_pre.mpr hr0, ?_⟩
          intro pre' run' post' hr'
          rcases runAt_pre_shape hr' with rfl | ⟨pre'', rfl⟩
          · exact absurd hr' (noPreRun _ _)
          · have := hmin pre'' run' post' (runAt_cons_pre.mp hr')
            simpa using Nat.succ_le_succ this
    · rw [if_neg hb]
      have noPreRun : ∀ run post, ¬ RunAt prev (c :: cs) [] run post := by
        intro run post hr
        obtain ⟨-, -, -, hbb, -⟩ := runAt_nil_pre.mp hr
        exact hb hbb
      constructor
      · intro h pre run post hr
        rcases runAt_pre_shape hr with rfl | ⟨pre', rfl⟩
        · exact noPreRun _ _ hr
        · exact (ih (some c)).1 h pre' run post (runAt_cons_pre.mp hr)
      · intro d h
        obtain ⟨pre0, post0, hr0, hmin⟩ := (ih (some c)).2 d h
        refine ⟨c :: pre0, post0, runAt_cons_pre.mpr hr0, ?_⟩
        intro pre' run' post' hr'
        rcases runAt_pre_shape hr' with rfl | ⟨pre'', rfl⟩
        · exact absurd hr' (noPreRun _ _)
        · have := hmin pre'' run' post' (runAt_cons_pre.mp hr')
          simpa using Nat.succ_le_succ this

/-- C8: the tracking-ID extractor returns absent exactly when the
utterance contains no word-boundary-delimited run of 7 or 8 decimal
digits; every returned identifier is exactly 8 characters long; and the
returned identifier is the first such run (the one with the shortest
prefix), left-padded with one `0` exactly when that run has 7 digits. -/
theorem c8_extractor_first_run_padded (msg : String) :
    (extract_tracking_id msg = none ↔
      ∀ pre run post, ¬ RunAt none msg.toList pre run post)
    ∧ (∀ t, extract_tracking_id msg = some t → t.length = 8)
    ∧ (∀ t, extract_tracking_id msg = some t →
        ∃ pre run post, RunAt none msg.toList pre run post
          ∧ (∀ pre' run' post', RunAt none msg.toList pre' run' post' →
              pre.length ≤ pre'.length)
          ∧ t.toList = (if run.length == 7 then '0' :: run else run)) := by
  refine ⟨⟨?_, ?_⟩, ?_, ?_⟩
  · intro h pre run post hr
    unfold extract_tracking_id at h
    cases hs : searchRun none msg.toList with
    | none => exact (searchRun_correct msg.toList none).1 hs pre run post hr
    | some d => rw [hs] at h; simp at h
  · intro hall
    unfold extract_tracking_id
    cases hs : searchRun none msg.toList with
    | none => rfl
    | some d =>
      exfalso
      obtain ⟨pre, post, hr, -⟩ := (searchRun_correct msg.toList none).2 d hs
      exact hall pre d post hr
  · intro t h
    unfold extract_tracking_id at h
    cases hs : searchRun none msg.toList with
    | none => rw [hs] at h; simp at h
    | some d =>
      rw [hs] at h
      simp only [Option.some.injEq] at h
      obtain ⟨pre, post, hr, -⟩ := (searchRun_correct msg.toList none).2 d hs
      obtain ⟨-, hlen, -, -, -⟩ := hr
      subst h
      show (String.mk (if d.length == 7 then '0' :: d else d)).data.length = 8
      rcases hlen with h7 | h8
      · simp [h7]
      · have : (d.length == 7) = false := by simp [h8]
        simp [this, h8]
  · intro t h
    unfold extract_tracking_id at h
    cases hs : searchRun none msg.toList with
    | none => rw [hs] at h; simp at h
    | some d =>
      rw [hs] at h
      simp only [Option.some.injEq] at h
      obtain ⟨pre, post, hr, hmin⟩ := (searchRun_correct msg.toList none).2 d hs
      subst h
      exact ⟨pre, d, post, hr, hmin, rfl⟩

/-- C8 (witness): a 7-digit run bounded by spaces is found and padded to
eight digits. -/
theorem c8_extractor_first_run_padded_witness :
    extract_tracking_id "my id is 1234567 ok" = some "01234567"
    ∧ ("01234567" : String).length = 8 :=
  ⟨by decide,
   (c8_extractor_first_run_padded "my id is 1234567 ok").2.1 "01234567" (by decide)⟩

end SwiftLogisticsAgent

end RocketLogistics